import Mathlib

/-!
# Echotron options: constructors, field tables and the options encoder

A shallow embedding of `options.go` (package `echotron`).

* The data declared in the source is translated one to one: `InputFile`,
  `MessageIDOptions`, their constructors, and the field table (Go field name,
  Go type, `query` tag) of every options struct.
* The consumers of the `query` tags (the encoder, the file resolver, the
  message-target validation, the markup codec and the request builder) are not
  part of `options.go`; they are modelled from the written specification and
  every such definition says so.
* The JSON encoding of the reply markups follows the `json` tags of the source
  and the rules of Go's `encoding/json`; the table of declared types and methods
  lists every `type` and method declaration of `options.go` and `types.go`.
-/

set_option linter.dupNamespace false

namespace Echotron

/-! ## Go data -/

/-- One Go `byte`. -/
abbrev Byte := Fin 256

/-- A Go slice value: `none` is the `nil` slice, `some xs` a non-nil slice. -/
abbrev Slice (α : Type) := Option (List α)

/-- Go `len(s)`: a `nil` slice has length 0. -/
def Slice.len {α : Type} : Slice α → Nat
  | none => 0
  | some xs => xs.length

/-- Generic JSON tree: the marshalled form of a domain record whose shape is
not interpreted here (`MessageEntity`, `UpdateType`, and the types that
`options.go` uses but that are declared in another file: `LoginURL`,
`CallbackGame`, `InputMedia`, `BotCommandScope`). -/
inductive Json where
  | null
  | bool (b : Bool)
  | num (n : Int)
  | str (s : String)
  | arr (xs : List Json)
  | obj (kvs : List (String × Json))

/-! ## `InputFile` (options.go, lines 209-229) -/

/-- Go `type InputFile struct { id string; path string; content []byte }`. -/
structure InputFile where
  id : String
  path : String
  content : Slice Byte
  deriving DecidableEq, Repr

/-- Go `func NewInputFileID(ID string) InputFile { return InputFile{id: ID} }`. -/
def NewInputFileID (ID : String) : InputFile :=
  { id := ID, path := "", content := none }

/-- Go `func NewInputFilePath(filePath string) InputFile { return InputFile{path: filePath} }`. -/
def NewInputFilePath (filePath : String) : InputFile :=
  { id := "", path := filePath, content := none }

/-- Go `func NewInputFileBytes(fileName string, content []byte) InputFile`
`{ return InputFile{path: fileName, content: content} }`. -/
def NewInputFileBytes (fileName : String) (content : Slice Byte) : InputFile :=
  { id := "", path := fileName, content := content }

/-- The zero value `InputFile{}`. -/
def InputFile.zero : InputFile :=
  { id := "", path := "", content := none }

/-- Content is present: the byte slice has at least one element (Go
`len(content) > 0`; a `nil` and an empty slice both hold no content). -/
def InputFile.hasContent (f : InputFile) : Bool :=
  decide (0 < Slice.len f.content)

/-- The alternative RemoteID is populated: the id field is non-empty. -/
def InputFile.isRemoteID (f : InputFile) : Bool :=
  decide (f.id ≠ "")

/-- The alternative LocalPath is populated: the path field is non-empty and
there is no content. -/
def InputFile.isLocalPath (f : InputFile) : Bool :=
  decide (f.path ≠ "") && !f.hasContent

/-- The alternative InlineBytes is populated: content is present. -/
def InputFile.isInlineBytes (f : InputFile) : Bool :=
  f.hasContent

/-- Number of populated alternatives (0 to 3). -/
def InputFile.populatedCount (f : InputFile) : Nat :=
  (if f.isRemoteID then 1 else 0) + (if f.isLocalPath then 1 else 0)
    + (if f.isInlineBytes then 1 else 0)

/-! ## `MessageIDOptions` (options.go, lines 343-358) -/

/-- Go `type MessageIDOptions struct { chatID int64; messageID int;`
`inlineMessageID string }`.  The integers are unbounded here: no arithmetic is
done on them, and every `int64`/`int` value is one of them. -/
structure MessageIDOptions where
  chatID : Int
  messageID : Int
  inlineMessageID : String
  deriving DecidableEq, Repr

/-- Go `func NewMessageID(chatID int64, messageID int) MessageIDOptions`
`{ return MessageIDOptions{chatID: chatID, messageID: messageID} }`. -/
def NewMessageID (chatID : Int) (messageID : Int) : MessageIDOptions :=
  { chatID := chatID, messageID := messageID, inlineMessageID := "" }

/-- Go `func NewInlineMessageID(ID string) MessageIDOptions`
`{ return MessageIDOptions{inlineMessageID: ID} }`. -/
def NewInlineMessageID (ID : String) : MessageIDOptions :=
  { chatID := 0, messageID := 0, inlineMessageID := ID }

/-- The (chatID, messageID) side is populated: the pair differs from its zero
value (0, 0). -/
def MessageIDOptions.pairPopulated (o : MessageIDOptions) : Bool :=
  decide (o.chatID ≠ 0) || decide (o.messageID ≠ 0)

/-- The inlineMessageID side is populated: the string is non-empty. -/
def MessageIDOptions.inlinePopulated (o : MessageIDOptions) : Bool :=
  decide (o.inlineMessageID ≠ "")

/-- Number of populated sides of the target union (0, 1 or 2). -/
def MessageIDOptions.populatedSides (o : MessageIDOptions) : Nat :=
  (if o.pairPopulated then 1 else 0) + (if o.inlinePopulated then 1 else 0)

/-! ## Reply markup (options.go, lines 91-162) -/

/-- Go `type KeyboardButton struct`; `RequestPoll` has the string type `PollType`. -/
structure KeyboardButton where
  Text : String
  RequestContact : Bool
  RequestLocation : Bool
  RequestPoll : String

/-- Go `type ReplyKeyboardMarkup struct`. -/
structure ReplyKeyboardMarkup where
  Keyboard : Slice (Slice KeyboardButton)
  ResizeKeyboard : Bool
  OneTimeKeyboard : Bool
  InputFieldPlaceholder : String
  Selective : Bool

/-- Go `type ReplyKeyboardRemove struct`. -/
structure ReplyKeyboardRemove where
  RemoveKeyboard : Bool
  Selective : Bool

/-- Go `type InlineKeyboardButton struct`.  `LoginURL` and `CallbackGame` have
types declared outside `options.go` and `types.go`; they are carried in
marshalled form. -/
structure InlineKeyboardButton where
  Text : String
  URL : String
  LoginURL : Json
  CallbackData : String
  SwitchInlineQuery : String
  SwitchInlineQueryCurrentChat : String
  CallbackGame : Json
  Pay : Bool

/-- Go `type InlineKeyboardMarkup struct { InlineKeyboard [][]InlineKeyboardButton }`. -/
structure InlineKeyboardMarkup where
  InlineKeyboard : Slice (Slice InlineKeyboardButton)

/-- Go `type ForceReply struct`. -/
structure ForceReply where
  ForceReply : Bool
  InputFieldPlaceholder : String
  Selective : Bool

/-- Go `type ReplyMarkup interface { ImplementsReplyMarkup() }`: the dynamic
values of the interface are the values of the four types that declare the
method `ImplementsReplyMarkup` (options.go, lines 119, 131, 151, 162). -/
inductive ReplyMarkup where
  | replyKeyboardMarkup (m : ReplyKeyboardMarkup)
  | replyKeyboardRemove (m : ReplyKeyboardRemove)
  | inlineKeyboardMarkup (m : InlineKeyboardMarkup)
  | forceReply (m : ForceReply)

/-! ## Field tables of the options structs (options.go, lines 164-391) -/

/-- Name and `query` tag of one declared struct field; `query` is what Go's
`StructTag.Get("query")` returns, the empty string when the field has no
`query` tag. -/
structure FieldDecl where
  name : String
  query : String
  deriving DecidableEq, Repr

/-- Go types of the fields of the options structs. -/
inductive GoType where
  /-- Go `string`, or a named string type such as `ParseMode`. -/
  | string (typeName : String)
  | int
  | int64
  | bool
  | float64
  /-- Go `[]T` for a record type `T`. -/
  | slice (elem : String)
  /-- The interface `ReplyMarkup`. -/
  | replyMarkup
  /-- The struct `InputFile`. -/
  | inputFile
  /-- The struct `InlineKeyboardMarkup`. -/
  | inlineKeyboardMarkup
  /-- A type declared outside the two source files (`InputMedia`, `BotCommandScope`). -/
  | external (typeName : String)
  /-- A struct type with its fields in declaration order. -/
  | struct (typeName : String) (fields : List (FieldDecl × GoType))

/-- Shorthand for one line of a struct declaration. -/
def fld (name : String) (ty : GoType) (query : String) : FieldDecl × GoType :=
  ({ name := name, query := query }, ty)

/-- The marker tag of an embedded group whose fields are merged into the parent. -/
def recursiveTag : String := "recursive"

def UpdateOptions : GoType := .struct "UpdateOptions"
  [ fld "Offset" .int "offset",
    fld "Limit" .int "limit",
    fld "Timeout" .int "timeout",
    fld "AllowedUpdates" (.slice "UpdateType") "allowed_updates" ]

def WebhookOptions : GoType := .struct "WebhookOptions"
  [ fld "Certificate" .inputFile "",
    fld "IPAddress" (.string "string") "ip_address",
    fld "MaxConnections" .int "max_connections",
    fld "AllowedUpdates" (.slice "UpdateType") "allowed_updates" ]

def BaseOptions : GoType := .struct "BaseOptions"
  [ fld "DisableNotification" .bool "disable_notification",
    fld "ReplyToMessageID" .int "reply_to_message_id",
    fld "AllowSendingWithoutReply" .bool "allow_sending_without_reply",
    fld "ReplyMarkup" .replyMarkup "reply_markup" ]

def MessageOptions : GoType := .struct "MessageOptions"
  [ fld "BaseOptions" BaseOptions "recursive",
    fld "ParseMode" (.string "ParseMode") "parse_mode",
    fld "Entities" (.slice "MessageEntity") "entities",
    fld "DisableWebPagePreview" .bool "disable_web_page_preview" ]

def ForwardOptions : GoType := .struct "ForwardOptions"
  [ fld "DisableNotification" .bool "disable_notification" ]

def CopyOptions : GoType := .struct "CopyOptions"
  [ fld "BaseOptions" BaseOptions "recursive",
    fld "ParseMode" (.string "ParseMode") "parse_mode",
    fld "Caption" (.string "string") "caption",
    fld "CaptionEntities" (.slice "MessageEntity") "caption_entities" ]

def PhotoOptions : GoType := .struct "PhotoOptions"
  [ fld "BaseOptions" BaseOptions "recursive",
    fld "ParseMode" (.string "ParseMode") "parse_mode",
    fld "Caption" (.string "string") "caption",
    fld "CaptionEntities" (.slice "MessageEntity") "caption_entities" ]

def AudioOptions : GoType := .struct "AudioOptions"
  [ fld "BaseOptions" BaseOptions "recursive",
    fld "ParseMode" (.string "ParseMode") "parse_mode",
    fld "Caption" (.string "string") "caption",
    fld "CaptionEntities" (.slice "MessageEntity") "caption_entities",
    fld "Duration" .int "duration",
    fld "Performer" (.string "string") "performer",
    fld "Title" (.string "string") "title",
    fld "Thumb" .inputFile "thumb" ]

def DocumentOptions : GoType := .struct "DocumentOptions"
  [ fld "BaseOptions" BaseOptions "recursive",
    fld "ParseMode" (.string "ParseMode") "parse_mode",
    fld "Caption" (.string "string") "caption",
    fld "CaptionEntities" (.slice "MessageEntity") "caption_entities",
    fld "DisableContentTypeDetection" .bool "disable_content_type_detection",
    fld "Thumb" .inputFile "thumb" ]

def VideoOptions : GoType := .struct "VideoOptions"
  [ fld "BaseOptions" BaseOptions "recursive",
    fld "ParseMode" (.string "ParseMode") "parse_mode",
    fld "Caption" (.string "string") "caption",
    fld "CaptionEntities" (.slice "MessageEntity") "caption_entities",
    fld "Duration" .int "duration",
    fld "Width" .int "width",
    fld "Height" .int "height",
    fld "Thumb" .inputFile "thumb",
    fld "SupportsStreaming" .bool "supports_streaming" ]

def AnimationOptions : GoType := .struct "AnimationOptions"
  [ fld "BaseOptions" BaseOptions "recursive",
    fld "ParseMode" (.string "ParseMode") "parse_mode",
    fld "Caption" (.string "string") "caption",
    fld "CaptionEntities" (.slice "MessageEntity") "caption_entities",
    fld "Duration" .int "duration",
    fld "Width" .int "width",
    fld "Height" .int "height",
    fld "Thumb" .inputFile "thumb" ]

def VoiceOptions : GoType := .struct "VoiceOptions"
  [ fld "BaseOptions" BaseOptions "recursive",
    fld "ParseMode" (.string "ParseMode") "parse_mode",
    fld "Caption" (.string "string") "caption",
    fld "CaptionEntities" (.slice "MessageEntity") "caption_entities",
    fld "Duration" .int "duration" ]

def VideoNoteOptions : GoType := .struct "VideoNoteOptions"
  [ fld "BaseOptions" BaseOptions "recursive",
    fld "Duration" .int "duration",
    fld "Length" .int "length",
    fld "Thumb" .inputFile "thumb" ]

def MediaGroupOptions : GoType := .struct "MediaGroupOptions"
  [ fld "DisableNotification" .bool "disable_notification",
    fld "ReplyToMessageID" .int "reply_to_message_id",
    fld "AllowSendingWithoutReply" .bool "allow_sending_without_reply" ]

def LocationOptions : GoType := .struct "LocationOptions"
  [ fld "BaseOptions" BaseOptions "recursive",
    fld "HorizontalAccuracy" .float64 "horizontal_accuracy",
    fld "LivePeriod" .int "live_period",
    fld "Heading" .int "heading",
    fld "ProximityAlertRadius" .int "proximity_alert_radius" ]

def VenueOptions : GoType := .struct "VenueOptions"
  [ fld "BaseOptions" BaseOptions "recursive",
    fld "FoursquareID" (.string "string") "foursquare_id",
    fld "FoursquareType" (.string "string") "foursquare_type",
    fld "GooglePlaceID" (.string "string") "google_place_id",
    fld "GooglePlaceType" (.string "string") "google_place_type" ]

def ContactOptions : GoType := .struct "ContactOptions"
  [ fld "BaseOptions" BaseOptions "recursive",
    fld "LastName" (.string "string") "last_name",
    fld "VCard" (.string "string") "vcard" ]

def CallbackQueryOptions : GoType := .struct "CallbackQueryOptions"
  [ fld "Text" (.string "string") "text",
    fld "ShowAlert" .bool "show_alert",
    fld "URL" (.string "string") "url",
    fld "CacheTime" .int "cache_time" ]

/-- Field table of `MessageIDOptions` (its value type is `Echotron.MessageIDOptions`). -/
def MessageIDOptionsDecl : GoType := .struct "MessageIDOptions"
  [ fld "chatID" .int64 "chat_id",
    fld "messageID" .int "message_id",
    fld "inlineMessageID" (.string "string") "inline_message_id" ]

def MessageTextOptions : GoType := .struct "MessageTextOptions"
  [ fld "ParseMode" (.string "string") "parse_mode",
    fld "Entities" (.slice "MessageEntity") "entities",
    fld "DisableWebPagePreview" .bool "disable_web_page_preview",
    fld "ReplyMarkup" .inlineKeyboardMarkup "reply_markup" ]

def MessageCaptionOptions : GoType := .struct "MessageCaptionOptions"
  [ fld "Caption" (.string "string") "caption",
    fld "ParseMode" (.string "string") "parse_mode",
    fld "CaptionEntities" (.slice "MessageEntity") "caption_entities",
    fld "ReplyMarkup" .inlineKeyboardMarkup "reply_markup" ]

def MessageMediaOptions : GoType := .struct "MessageMediaOptions"
  [ fld "Media" (.external "InputMedia") "media",
    fld "ReplyMarkup" .inlineKeyboardMarkup "reply_markup" ]

def MessageReplyMarkup : GoType := .struct "MessageReplyMarkup"
  [ fld "ReplyMarkup" .inlineKeyboardMarkup "reply_markup" ]

def CommandOptions : GoType := .struct "CommandOptions"
  [ fld "Scope" (.external "BotCommandScope") "scope",
    fld "LanguageCode" (.string "string") "language_code" ]

/-- Every options struct declared in options.go, in declaration order. -/
def optionsStructs : List GoType :=
  [ UpdateOptions, WebhookOptions, BaseOptions, MessageOptions, ForwardOptions,
    CopyOptions, PhotoOptions, AudioOptions, DocumentOptions, VideoOptions,
    AnimationOptions, VoiceOptions, VideoNoteOptions, MediaGroupOptions,
    LocationOptions, VenueOptions, ContactOptions, CallbackQueryOptions,
    MessageIDOptionsDecl, MessageTextOptions, MessageCaptionOptions,
    MessageMediaOptions, MessageReplyMarkup, CommandOptions ]

/-- Declared fields of a struct type (none for any other type). -/
def GoType.fields : GoType → List (FieldDecl × GoType)
  | .struct _ fs => fs
  | _ => []

/-- Name of a struct type. -/
def GoType.structName : GoType → String
  | .struct n _ => n
  | _ => ""

mutual
/-- Wire keys of a field list: a field tagged `recursive` is replaced by the
wire keys of its embedded group, at the same level and unprefixed; a field
without a `query` tag contributes no key; any other field contributes its tag. -/
def wireKeysOfFields : List (FieldDecl × GoType) → List String
  | [] => []
  | (d, t) :: rest =>
    (if d.query = recursiveTag then wireKeys t
     else if d.query = "" then []
     else [d.query]) ++ wireKeysOfFields rest
/-- Wire keys of a struct type. -/
def wireKeys : GoType → List String
  | .struct _ fs => wireKeysOfFields fs
  | _ => []
end

/-- Query tags of the directly declared fields, one per field. -/
def GoType.directTags (t : GoType) : List String :=
  t.fields.map (fun p => p.1.query)

/-! ## Values of the options structs -/

/-- Run-time value of a field or of a whole struct.  A struct value lists its
fields in declaration order, each with its declaration (name and tag). -/
inductive Value where
  | str (s : String)
  /-- An `int` or `int64` value. -/
  | int (i : Int)
  | bool (b : Bool)
  /-- A `float64` given by its 64-bit pattern; `0.0` is the pattern 0. -/
  | float (bits : Nat)
  /-- A slice of records, each in marshalled form. -/
  | seq (xs : Slice Json)
  /-- A `ReplyMarkup` interface value; `none` is the `nil` interface. -/
  | markup (m : Option ReplyMarkup)
  | file (f : InputFile)
  | inlineKeyboard (m : InlineKeyboardMarkup)
  /-- A value of a type declared outside the sources; `none` is its zero value. -/
  | external (v : Option Json)
  | struct (fields : List (FieldDecl × Value))

mutual
/-- Go zero value of a type. -/
def zeroValue : GoType → Value
  | .string _ => .str ""
  | .int => .int 0
  | .int64 => .int 0
  | .bool => .bool false
  | .float64 => .float 0
  | .slice _ => .seq none
  | .replyMarkup => .markup none
  | .inputFile => .file InputFile.zero
  | .inlineKeyboardMarkup => .inlineKeyboard { InlineKeyboard := none }
  | .external _ => .external none
  | .struct _ fs => .struct (zeroFields fs)
/-- Zero values of a field list. -/
def zeroFields : List (FieldDecl × GoType) → List (FieldDecl × Value)
  | [] => []
  | (d, t) :: rest => (d, zeroValue t) :: zeroFields rest
end

/-- Whether a field called `name` is declared directly in the field list. -/
def hasDirect (name : String) (fs : List (FieldDecl × Value)) : Bool :=
  fs.any (fun p => decide (p.1.name = name))

/-- Assignment to the directly declared field called `name`. -/
def setDirect (name : String) (x : Value) : List (FieldDecl × Value) → List (FieldDecl × Value)
  | [] => []
  | (d, v) :: rest => if d.name = name then (d, x) :: rest else (d, v) :: setDirect name x rest

mutual
/-- Go assignment `v.name = x` on a struct value: the directly declared field
called `name` when there is one, otherwise the field promoted from an embedded
struct (the struct-valued fields are the embedded ones).  A value that is not a
struct is left as it is. -/
def setField (name : String) (x : Value) : Value → Value
  | .struct fs =>
    if hasDirect name fs then .struct (setDirect name x fs)
    else .struct (setPromoted name x fs)
  | .str s => .str s
  | .int i => .int i
  | .bool b => .bool b
  | .float bits => .float bits
  | .seq xs => .seq xs
  | .markup m => .markup m
  | .file f => .file f
  | .inlineKeyboard m => .inlineKeyboard m
  | .external v => .external v
/-- Assignment to a promoted field: inside the embedded structs. -/
def setPromoted (name : String) (x : Value) : List (FieldDecl × Value) → List (FieldDecl × Value)
  | [] => []
  | (d, v) :: rest => (d, setField name x v) :: setPromoted name x rest
end

/-- The four fields of a `BaseOptions` value, in declaration order
(options.go, lines 181-186). -/
def baseOptionsFields (disableNotification : Bool) (replyToMessageID : Int)
    (allowSendingWithoutReply : Bool) (replyMarkup : Option ReplyMarkup) :
    List (FieldDecl × Value) :=
  [ ({ name := "DisableNotification", query := "disable_notification" }, .bool disableNotification),
    ({ name := "ReplyToMessageID", query := "reply_to_message_id" }, .int replyToMessageID),
    ({ name := "AllowSendingWithoutReply", query := "allow_sending_without_reply" },
      .bool allowSendingWithoutReply),
    ({ name := "ReplyMarkup", query := "reply_markup" }, .markup replyMarkup) ]

/-- The embedded field `BaseOptions` with its tag `query:"recursive"`, as it is
declared in `MessageOptions`, `CopyOptions`, `PhotoOptions` and the others. -/
def embeddedBaseOptions (disableNotification : Bool) (replyToMessageID : Int)
    (allowSendingWithoutReply : Bool) (replyMarkup : Option ReplyMarkup) :
    FieldDecl × Value :=
  ({ name := "BaseOptions", query := "recursive" },
    .struct (baseOptionsFields disableNotification replyToMessageID
      allowSendingWithoutReply replyMarkup))

/-- The struct value of a `MessageIDOptions`, fields and tags as declared
(options.go, lines 344-348). -/
def MessageIDOptions.toValue (o : MessageIDOptions) : Value :=
  .struct
    [ ({ name := "chatID", query := "chat_id" }, .int o.chatID),
      ({ name := "messageID", query := "message_id" }, .int o.messageID),
      ({ name := "inlineMessageID", query := "inline_message_id" }, .str o.inlineMessageID) ]

/-! ## The encoder and the file resolver

The functions that read the `query` tags are not part of `options.go`.  The
definitions of this section follow the written specification of the encoder,
the file resolver and the target validation. -/

/-- Modelled from the spec: where the bytes of a pending binary part come from
(section 4.2, `bytesSource`). -/
inductive BytesSource where
  /-- The file at this path is read later, when the request body is built. -/
  | deferredRead (path : String)
  /-- The bytes were given in memory. -/
  | inMemory (bytes : List Byte)
  deriving DecidableEq, Repr

/-- Modelled from the spec: result of resolving one file attachment (section
4.2), a plain text value or a pending binary part with its file name. -/
inductive Resolved where
  | inlineValue (v : String)
  | part (filename : String) (bytes : BytesSource)
  deriving DecidableEq, Repr

/-- Modelled from the spec: the base name of a path, which the file resolver
uses as the file name of a local-path part (the function is not in the
sources).  Trailing slashes are dropped and the last slash-separated element is
kept; the empty path gives ".", a path of slashes only gives "/". -/
def baseName (path : String) : String :=
  if path = "" then "."
  else
    let stripped := path.toList.reverse.dropWhile (fun c => c == '/')
    if stripped.isEmpty then "/"
    else String.mk (stripped.takeWhile (fun c => c != '/')).reverse

/-- Modelled from the spec: the File Resolver (section 4.2), which is not in
the sources.  RemoteID populated: a plain text value equal to the id.
LocalPath populated and no content: a pending binary part named after the base
name of the path, read later.  Content present: a pending binary part made of
the given bytes, under the given file name.  The alternatives are tested in
this order and the invariant is not validated; when no alternative is populated
no branch applies and nothing is produced. -/
def resolve (f : InputFile) : Option Resolved :=
  if f.isRemoteID then some (.inlineValue f.id)
  else if f.isLocalPath then some (.part (baseName f.path) (.deferredRead f.path))
  else if f.isInlineBytes then some (.part f.path (.inMemory (f.content.getD [])))
  else none

/-- Modelled from the spec: encoded value of one wire key (section 3,
WireMapping): a string, a JSON text or a pending binary part. -/
inductive WireValue where
  /-- Plain text: a string, a decimal number, "true" or "false". -/
  | text (s : String)
  /-- Decimal text of the `float64` with this bit pattern. -/
  | floatText (bits : Nat)
  /-- JSON text of a sequence, a markup or another composite value. -/
  | jsonText (v : Value)
  /-- Pending binary part. -/
  | part (filename : String) (bytes : BytesSource)

/-- Modelled from the spec: ordered mapping from wire key to encoded value. -/
abbrev WireMapping := List (String × WireValue)

mutual
/-- Modelled from the spec: a value equals the zero value of its type (empty
string, 0, false, empty sequence, nil; a struct when all its fields do). -/
def isZero : Value → Bool
  | .str s => decide (s = "")
  | .int i => decide (i = 0)
  | .bool b => !b
  | .float bits => decide (bits = 0)
  | .seq xs => decide (Slice.len xs = 0)
  | .markup m => m.isNone
  | .file f => decide (f.id = "") && decide (f.path = "") && decide (Slice.len f.content = 0)
  | .inlineKeyboard m => decide (Slice.len m.InlineKeyboard = 0)
  | .external v => v.isNone
  | .struct fs => allZero fs
/-- Every field of the list is at its zero value. -/
def allZero : List (FieldDecl × Value) → Bool
  | [] => true
  | (_, v) :: rest => isZero v && allZero rest
end

/-- Modelled from the spec: encoding of one tagged field under its wire key
(section 4.1).  Scalar and composite kinds: omitted at the zero value, else
strings as they are, integers in decimal, booleans as "true"/"false",
sequences and structs as JSON text.  Markup kind: omitted when no variant is
carried, else the JSON text of the variant.  File attachment kind: what the
file resolver produces, a plain text value or a pending binary part. -/
def encodeField (key : String) : Value → WireMapping
  | .str s => if s = "" then [] else [(key, .text s)]
  | .int i => if i = 0 then [] else [(key, .text (toString i))]
  | .bool b => if b then [(key, .text "true")] else []
  | .float bits => if bits = 0 then [] else [(key, .floatText bits)]
  | .seq xs => if Slice.len xs = 0 then [] else [(key, .jsonText (.seq xs))]
  | .markup none => []
  | .markup (some m) => [(key, .jsonText (.markup (some m)))]
  | .file f =>
    match resolve f with
    | none => []
    | some (.inlineValue v) => [(key, .text v)]
    | some (.part filename bytes) => [(key, .part filename bytes)]
  | .inlineKeyboard m =>
    if Slice.len m.InlineKeyboard = 0 then [] else [(key, .jsonText (.inlineKeyboard m))]
  | .external none => []
  | .external (some j) => [(key, .jsonText (.external (some j)))]
  | .struct fs => if allZero fs then [] else [(key, .jsonText (.struct fs))]

mutual
/-- Modelled from the spec: the encoder walk over the fields in declaration
order (section 4.1).  A field tagged `recursive` is encoded as a group and its
entries are merged at the same level, unprefixed; a field without a `query` tag
has no wire key and stores nothing; any other field is encoded under its tag. -/
def encodeFields : List (FieldDecl × Value) → WireMapping
  | [] => []
  | (d, v) :: rest =>
    (if d.query = recursiveTag then encode v
     else if d.query = "" then []
     else encodeField d.query v) ++ encodeFields rest
/-- Modelled from the spec: `encode(optionSet)`, the wire mapping of a struct
value. -/
def encode : Value → WireMapping
  | .struct fs => encodeFields fs
  | .str _ => []
  | .int _ => []
  | .bool _ => []
  | .float _ => []
  | .seq _ => []
  | .markup _ => []
  | .file _ => []
  | .inlineKeyboard _ => []
  | .external _ => []
end

/-- Modelled from the spec: the configuration errors that concern the shape of
the input (section 7). -/
inductive ConfigurationError where
  /-- Two fields of one options type share a wire key. -/
  | keyCollision
  /-- A message target with this number of populated sides (0 or 2). -/
  | targetSides (populated : Nat)
  deriving DecidableEq, Repr

/-- Modelled from the spec: construction of the field descriptor table of an
options type, where a wire-key collision across merged groups is detected
(section 4.1, Output). -/
def fieldDescriptorTable (t : GoType) : Except ConfigurationError (List String) :=
  if (wireKeys t).Nodup then .ok (wireKeys t) else .error .keyCollision

/-- Modelled from the spec: encoding of a value of the options type `t`: the
descriptor table of `t` is built first, then the value is walked. -/
def encodeAs (t : GoType) (v : Value) : Except ConfigurationError WireMapping :=
  match fieldDescriptorTable t with
  | .ok _ => .ok (encode v)
  | .error e => .error e

/-- Modelled from the spec: validation of a message target (section 4.1,
Validation): exactly one side populated, otherwise a configuration error. -/
def validateTarget (o : MessageIDOptions) : Except ConfigurationError Unit :=
  if o.populatedSides = 1 then .ok () else .error (.targetSides o.populatedSides)

/-- Modelled from the spec: encoding of a message target; validation comes
first and nothing is encoded when it fails. -/
def encodeTarget (o : MessageIDOptions) : Except ConfigurationError WireMapping :=
  match validateTarget o with
  | .ok _ => .ok (encode o.toValue)
  | .error e => .error e

/-- The options bundles proper, those documented as holding the optional
parameters of a method: every options struct but `MessageIDOptions`, which
holds the message target. -/
def optionSetTypes : List GoType :=
  [ UpdateOptions, WebhookOptions, BaseOptions, MessageOptions, ForwardOptions,
    CopyOptions, PhotoOptions, AudioOptions, DocumentOptions, VideoOptions,
    AnimationOptions, VoiceOptions, VideoNoteOptions, MediaGroupOptions,
    LocationOptions, VenueOptions, ContactOptions, CallbackQueryOptions,
    MessageTextOptions, MessageCaptionOptions, MessageMediaOptions,
    MessageReplyMarkup, CommandOptions ]

/-! ## Poll types (options.go, lines 31-39) -/

/-- Go `Quiz PollType = "quiz"`. -/
def Quiz : String := "quiz"

/-- Go `Regular = "regular"`, a string constant of the same block. -/
def Regular : String := "regular"

/-- Go `Any = ""`, a string constant of the same block. -/
def Any : String := ""

/-- Zero value of `PollType`, whose underlying type is `string`. -/
def PollType.zero : String := ""

/-! ## JSON encoding per the `json` tags

Go's `encoding/json` writes a struct as an object whose members follow the
declared fields in order, each under the name of its `json` tag; a field tagged
`omitempty` is left out when its value is empty (false, 0, a nil pointer or
interface, an empty array, slice, map or string).  A nil slice is written as
`null`, an interface value as its dynamic value. -/

/-- One member of a struct encoding: `empty` tells whether the field value is
empty in the sense of `omitempty`. -/
def jsonMember (key : String) (omitempty : Bool) (empty : Bool) (v : Json) :
    List (String × Json) :=
  if omitempty && empty then [] else [(key, v)]

/-- Encoding of a slice: `null` for the nil slice, an array otherwise. -/
def jsonSlice {α : Type} (f : α → Json) : Slice α → Json
  | none => .null
  | some xs => .arr (xs.map f)

/-- Member names of a JSON object, in order (none for any other document). -/
def Json.topKeys : Json → List String
  | .obj kvs => kvs.map (fun kv => kv.1)
  | _ => []

/-- Encoding of a `KeyboardButton` (json tags of options.go, lines 98-101). -/
def KeyboardButton.toJson (b : KeyboardButton) : Json :=
  .obj (jsonMember "text" false (decide (b.Text = "")) (.str b.Text)
    ++ jsonMember "request_contact" true (!b.RequestContact) (.bool b.RequestContact)
    ++ jsonMember "request_location" true (!b.RequestLocation) (.bool b.RequestLocation)
    ++ jsonMember "request_poll" true (decide (b.RequestPoll = "")) (.str b.RequestPoll))

/-- Encoding of a `ReplyKeyboardMarkup` (json tags of options.go, lines 111-115). -/
def ReplyKeyboardMarkup.toJson (m : ReplyKeyboardMarkup) : Json :=
  .obj (jsonMember "keyboard" false (decide (Slice.len m.Keyboard = 0))
      (jsonSlice (jsonSlice KeyboardButton.toJson) m.Keyboard)
    ++ jsonMember "resize_keyboard" true (!m.ResizeKeyboard) (.bool m.ResizeKeyboard)
    ++ jsonMember "one_time_keyboard" true (!m.OneTimeKeyboard) (.bool m.OneTimeKeyboard)
    ++ jsonMember "input_field_placeholder" true (decide (m.InputFieldPlaceholder = ""))
      (.str m.InputFieldPlaceholder)
    ++ jsonMember "selective" true (!m.Selective) (.bool m.Selective))

/-- Encoding of a `ReplyKeyboardRemove` (json tags of options.go, lines 126-127;
neither field is tagged `omitempty`). -/
def ReplyKeyboardRemove.toJson (m : ReplyKeyboardRemove) : Json :=
  .obj (jsonMember "remove_keyboard" false (!m.RemoveKeyboard) (.bool m.RemoveKeyboard)
    ++ jsonMember "selective" false (!m.Selective) (.bool m.Selective))

/-- Encoding of an `InlineKeyboardButton` (json tags of options.go, lines
135-142).  The types `LoginURL` and `CallbackGame` are declared outside the
sources, so whether a value of theirs is empty in the sense of `omitempty`
depends on declarations that are not available: `extEmpty` is that test, on the
marshalled value. -/
def InlineKeyboardButton.toJson (extEmpty : Json → Bool) (b : InlineKeyboardButton) : Json :=
  .obj (jsonMember "text" false (decide (b.Text = "")) (.str b.Text)
    ++ jsonMember "url" true (decide (b.URL = "")) (.str b.URL)
    ++ jsonMember "login_url" true (extEmpty b.LoginURL) b.LoginURL
    ++ jsonMember "callback_data" true (decide (b.CallbackData = "")) (.str b.CallbackData)
    ++ jsonMember "switch_inline_query" true (decide (b.SwitchInlineQuery = ""))
      (.str b.SwitchInlineQuery)
    ++ jsonMember "switch_inline_query_current_chat" true
      (decide (b.SwitchInlineQueryCurrentChat = "")) (.str b.SwitchInlineQueryCurrentChat)
    ++ jsonMember "callback_game" true (extEmpty b.CallbackGame) b.CallbackGame
    ++ jsonMember "pay" true (!b.Pay) (.bool b.Pay))

/-- Encoding of an `InlineKeyboardMarkup` (json tag of options.go, line 147). -/
def InlineKeyboardMarkup.toJson (extEmpty : Json → Bool) (m : InlineKeyboardMarkup) : Json :=
  .obj (jsonMember "inline_keyboard" false (decide (Slice.len m.InlineKeyboard = 0))
    (jsonSlice (jsonSlice (InlineKeyboardButton.toJson extEmpty)) m.InlineKeyboard))

/-- Encoding of a `ForceReply` (json tags of options.go, lines 156-158). -/
def ForceReply.toJson (m : Echotron.ForceReply) : Json :=
  .obj (jsonMember "force_reply" false (!m.ForceReply) (.bool m.ForceReply)
    ++ jsonMember "input_field_placeholder" true (decide (m.InputFieldPlaceholder = ""))
      (.str m.InputFieldPlaceholder)
    ++ jsonMember "selective" false (!m.Selective) (.bool m.Selective))

/-- Encoding of a `ReplyMarkup` interface value: the encoding of the variant it
carries. -/
def ReplyMarkup.toJson (extEmpty : Json → Bool) : ReplyMarkup → Json
  | .replyKeyboardMarkup m => m.toJson
  | .replyKeyboardRemove m => m.toJson
  | .inlineKeyboardMarkup m => m.toJson extEmpty
  | .forceReply m => m.toJson

/-- The key that tells the variant of a reply markup apart. -/
def ReplyMarkup.discriminatingKey : ReplyMarkup → String
  | .replyKeyboardMarkup _ => "keyboard"
  | .replyKeyboardRemove _ => "remove_keyboard"
  | .inlineKeyboardMarkup _ => "inline_keyboard"
  | .forceReply _ => "force_reply"

/-- The four discriminating keys. -/
def discriminatingKeys : List String :=
  ["keyboard", "remove_keyboard", "inline_keyboard", "force_reply"]

/-- Name of the Go type of the variant that a reply markup carries. -/
def ReplyMarkup.typeName : ReplyMarkup → String
  | .replyKeyboardMarkup _ => "ReplyKeyboardMarkup"
  | .replyKeyboardRemove _ => "ReplyKeyboardRemove"
  | .inlineKeyboardMarkup _ => "InlineKeyboardMarkup"
  | .forceReply _ => "ForceReply"

mutual
/-- Compact JSON text of a document, as `encoding/json` writes it.  The quoting
of a string value (escapes included) is the library's and is taken as the
function `quote`; member names come from the `json` tags and are written between
double quotes as they are. -/
def Json.render (quote : String → String) : Json → String
  | .null => "null"
  | .bool b => if b then "true" else "false"
  | .num n => toString n
  | .str s => quote s
  | .arr xs => "[" ++ renderElems quote xs ++ "]"
  | .obj kvs => "\x7b" ++ renderMembers quote kvs ++ "\x7d"
/-- Elements of an array, separated by commas. -/
def renderElems (quote : String → String) : List Json → String
  | [] => ""
  | x :: rest =>
    Json.render quote x ++ (if rest.isEmpty then "" else "," ++ renderElems quote rest)
/-- Members of an object, separated by commas. -/
def renderMembers (quote : String → String) : List (String × Json) → String
  | [] => ""
  | (k, v) :: rest =>
    "\"" ++ k ++ "\":" ++ Json.render quote v
      ++ (if rest.isEmpty then "" else "," ++ renderMembers quote rest)
end

/-! ## Declared types and methods (options.go and types.go) -/

/-- Kind of a declared type: a struct, a named string type, a named slice type
or an interface. -/
inductive TypeKind where
  | struct
  | string
  | slice
  | interface
  deriving DecidableEq, Repr

/-- One `type` declaration: its name, its kind and the types of its embedded
(anonymous) fields. -/
structure TypeDecl where
  name : String
  kind : TypeKind
  embedded : List String
  deriving DecidableEq, Repr

/-- Shorthand for one `type` declaration. -/
def td (name : String) (kind : TypeKind) (embedded : List String) : TypeDecl :=
  { name := name, kind := kind, embedded := embedded }

/-- Every `type` declaration of options.go, in declaration order. -/
def optionsGoTypes : List TypeDecl :=
  [
    td "ParseMode" .string [], td "PollType" .string [], td "DiceEmoji" .string [],
    td "ChatAction" .string [], td "UpdateType" .string [], td "ReplyMarkup" .interface [],
    td "KeyboardButton" .struct [], td "KeyboardButtonPollType" .struct [],
    td "ReplyKeyboardMarkup" .struct [], td "ReplyKeyboardRemove" .struct [],
    td "InlineKeyboardButton" .struct [], td "InlineKeyboardMarkup" .struct [],
    td "ForceReply" .struct [], td "UpdateOptions" .struct [], td "WebhookOptions" .struct [],
    td "BaseOptions" .struct [], td "MessageOptions" .struct ["BaseOptions"],
    td "ForwardOptions" .struct [], td "CopyOptions" .struct ["BaseOptions"],
    td "InputFile" .struct [], td "PhotoOptions" .struct ["BaseOptions"],
    td "AudioOptions" .struct ["BaseOptions"], td "DocumentOptions" .struct ["BaseOptions"],
    td "VideoOptions" .struct ["BaseOptions"], td "AnimationOptions" .struct ["BaseOptions"],
    td "VoiceOptions" .struct ["BaseOptions"], td "VideoNoteOptions" .struct ["BaseOptions"],
    td "MediaGroupOptions" .struct [], td "LocationOptions" .struct ["BaseOptions"],
    td "VenueOptions" .struct ["BaseOptions"], td "ContactOptions" .struct ["BaseOptions"],
    td "CallbackQueryOptions" .struct [], td "MessageIDOptions" .struct [],
    td "MessageTextOptions" .struct [], td "MessageCaptionOptions" .struct [],
    td "MessageMediaOptions" .struct [], td "MessageReplyMarkup" .struct [],
    td "CommandOptions" .struct [] ]

/-- Every `type` declaration of types.go, in declaration order. -/
def typesGoTypes : List TypeDecl :=
  [
    td "Chat" .struct [], td "ChatPhoto" .struct [], td "ChatInviteLink" .struct [],
    td "ChatMember" .struct [], td "ChatMemberUpdated" .struct [],
    td "ChatPermissions" .struct [], td "ChatLocation" .struct [], td "User" .struct [],
    td "MessageEntity" .struct [], td "Message" .struct [], td "Update" .struct [],
    td "APIResponseBase" .struct [], td "APIResponseUpdate" .struct ["APIResponseBase"],
    td "APIResponseMessage" .struct ["APIResponseBase"],
    td "APIResponseCommands" .struct ["APIResponseBase"],
    td "APIResponseChat" .struct ["APIResponseBase"],
    td "APIResponseStickerSet" .struct ["APIResponseBase"],
    td "APIResponseAdmins" .struct ["APIResponseBase"], td "CallbackQuery" .struct [],
    td "PhotoSize" .struct [], td "Animation" .struct [], td "Audio" .struct [],
    td "Document" .struct [], td "Video" .struct [], td "VideoNote" .struct [],
    td "Voice" .struct [], td "Contact" .struct [], td "Dice" .struct [],
    td "PollOption" .struct [], td "PollAnswer" .struct [], td "Poll" .struct [],
    td "Location" .struct [], td "Venue" .struct [], td "MaskPosition" .struct [],
    td "Sticker" .struct [], td "StickerSet" .struct [], td "Game" .struct [],
    td "MessageAutoDeleteTimerChanged" .struct [], td "ProximityAlertTriggered" .struct [],
    td "VoiceChatStarted" .struct [], td "VoiceChatEnded" .struct [],
    td "VoiceChatParticipantsInvited" .struct [], td "Button" .struct [], td "KbdRow" .slice [],
    td "Keyboard" .struct [], td "KeyboardRemove" .struct [], td "InlineButton" .struct [],
    td "InlineKbdRow" .slice [], td "InlineKeyboard" .struct [], td "BotCommand" .struct [] ]

/-- Every type declared in the two source files. -/
def declaredTypes : List TypeDecl := optionsGoTypes ++ typesGoTypes

/-- Every method declaration of the two source files, as (receiver type, method
name): the four of options.go, lines 119, 131, 151 and 162, each with a value
receiver; types.go declares no method. -/
def methodDecls : List (String × String) :=
  [ ("ReplyKeyboardMarkup", "ImplementsReplyMarkup"),
    ("ReplyKeyboardRemove", "ImplementsReplyMarkup"),
    ("InlineKeyboardMarkup", "ImplementsReplyMarkup"),
    ("ForceReply", "ImplementsReplyMarkup") ]

/-- Types of the embedded fields of the declared type called `t`. -/
def embeddedOf (t : String) : List String :=
  match declaredTypes.find? (fun d => d.name == t) with
  | some d => d.embedded
  | none => []

/-- Go method set of the type called `t`: the methods declared with receiver
`t` and the methods promoted from its embedded fields.  `depth` bounds the
length of the chain of embeddings that is followed. -/
def hasMethod : Nat → String → String → Bool
  | 0, _, _ => false
  | depth + 1, t, m =>
    methodDecls.contains (t, m) || (embeddedOf t).any (fun e => hasMethod depth e m)

/-- The declared type can be carried as a `ReplyMarkup`: it is a concrete type
whose method set has `ImplementsReplyMarkup`, the one method of the interface
(options.go, lines 92-94).  A chain of embeddings is shorter than the number of
declared types. -/
def implementsReplyMarkup (d : TypeDecl) : Bool :=
  d.kind != TypeKind.interface
    && hasMethod declaredTypes.length d.name "ImplementsReplyMarkup"

/-- The Go type is the interface `ReplyMarkup`. -/
def GoType.isReplyMarkup : GoType → Bool
  | .replyMarkup => true
  | _ => false

/-- Names of the variants carried by the markup fields of a field list. -/
def carriedVariants : List (FieldDecl × Value) → List String
  | [] => []
  | (_, Value.markup (some m)) :: rest => m.typeName :: carriedVariants rest
  | _ :: rest => carriedVariants rest

/-! ## The markup codec and the request builder

Like the encoder, the markup codec and the request builder are not part of
`options.go`; the definitions of this section follow the written
specification. -/

/-- Modelled from the spec: the JSON document that a JSON-text entry stands for
(sections 4.1 and 4.3).  A markup is written by the markup codec, which is the
encoding of the carried variant per its `json` tags; a sequence is the array of
its marshalled records.  Floating-point numbers and the option structs
themselves are not written as JSON. -/
def jsonOf (extEmpty : Json → Bool) : Value → Option Json
  | .str s => some (.str s)
  | .int i => some (.num i)
  | .bool b => some (.bool b)
  | .float _ => none
  | .seq xs => some (jsonSlice (fun j => j) xs)
  | .markup none => some .null
  | .markup (some m) => some (m.toJson extEmpty)
  | .file _ => none
  | .inlineKeyboard m => some (m.toJson extEmpty)
  | .external none => some .null
  | .external (some j) => some j
  | .struct _ => none

/-- The encoded value is the JSON text of a markup. -/
def WireValue.isMarkupJson : WireValue → Bool
  | .jsonText (.markup _) => true
  | .jsonText (.inlineKeyboard _) => true
  | _ => false

/-- The entries of a mapping whose value is the JSON text of a markup. -/
def markupEntries (m : WireMapping) : WireMapping :=
  m.filter (fun e => e.2.isMarkupJson)

/-- The value is a plain field value: not a markup and not an embedded struct. -/
def Value.isPlain : Value → Bool
  | .markup _ => false
  | .inlineKeyboard _ => false
  | .struct _ => false
  | _ => true

/-- Every field of the list holds a plain value. -/
def allPlain (fs : List (FieldDecl × Value)) : Bool :=
  fs.all (fun p => p.2.isPlain)

/-- Members of the object of an inline keyboard button, in the order of the
declared fields (options.go, lines 135-142): `text` always, with the button
text; each optional string field that is set, that is non-empty, with its
string; `pay` when true.  The two fields held by value, `LoginURL` and
`CallbackGame`, are written with their marshalled value unless `dropLogin`,
respectively `dropGame`, says that the member is left out. -/
def InlineKeyboardButton.members (dropLogin dropGame : Bool) (b : InlineKeyboardButton) :
    List (String × Json) :=
  ("text", Json.str b.Text)
    :: ((if b.URL = "" then [] else [("url", Json.str b.URL)])
      ++ (if dropLogin then [] else [("login_url", b.LoginURL)])
      ++ (if b.CallbackData = "" then [] else [("callback_data", Json.str b.CallbackData)])
      ++ (if b.SwitchInlineQuery = "" then []
          else [("switch_inline_query", Json.str b.SwitchInlineQuery)])
      ++ (if b.SwitchInlineQueryCurrentChat = "" then []
          else [("switch_inline_query_current_chat", Json.str b.SwitchInlineQueryCurrentChat)])
      ++ (if dropGame then [] else [("callback_game", b.CallbackGame)])
      ++ (if b.Pay then [("pay", Json.bool true)] else []))

/-- The button object as the claim describes it: the `text` member and the
members of the optional fields that were set, where a field held by value is
set when its value is not the zero value of its type; `extUnset` tells, on the
marshalled value, that the value is that zero value. -/
def InlineKeyboardButton.claimedJson (extUnset : Json → Bool) (b : InlineKeyboardButton) :
    Json :=
  Json.obj (b.members (extUnset b.LoginURL) (extUnset b.CallbackGame))

/-- The `omitempty` test of `encoding/json` on a value of a struct type: a
struct value is never empty. -/
def omitemptyOfStruct (_ : Json) : Bool := false

/-- The `omitempty` test of `encoding/json` on a value of a pointer type: the
nil pointer, written `null`, is empty. -/
def omitemptyOfPointer : Json → Bool
  | .null => true
  | _ => false

/-- The marshalled value is the empty object, the form of the zero value of a
struct type without fields. -/
def isEmptyObject : Json → Bool
  | .obj [] => true
  | _ => false

/-- Modelled from the spec: the text of an encoded value (section 3,
WireMapping): a plain text as it is, a JSON text as the compact text of its
document.  The decimal text of a floating-point number and the bytes of a
binary part are not texts of this model. -/
def wireText (quote : String → String) (extEmpty : Json → Bool) : WireValue → Option String
  | .text s => some s
  | .floatText _ => none
  | .jsonText v => (jsonOf extEmpty v).map (Json.render quote)
  | .part _ _ => none

/-- The compact text of the keyboard with one row of two buttons whose objects
have the given members. -/
def keyboardText (quote : String → String) (members1 members2 : List (String × Json)) :
    String :=
  Json.render quote
    (Json.obj [("inline_keyboard", Json.arr [Json.arr [Json.obj members1, Json.obj members2]])])

/-- A quoting of strings without escapes: the string between double quotes. -/
def plainQuote (s : String) : String := "\"" ++ s ++ "\""

/-- A button with only its text and its callback data set; the two fields held
by value both hold the marshalled value `ext`. -/
def textDataButton (text data : String) (ext : Json) : InlineKeyboardButton :=
  { Text := text, URL := "", LoginURL := ext, CallbackData := data, SwitchInlineQuery := "",
    SwitchInlineQueryCurrentChat := "", CallbackGame := ext, Pay := false }

/-- An inline keyboard with one row of two buttons. -/
def oneRowKeyboard (b1 b2 : InlineKeyboardButton) : InlineKeyboardMarkup :=
  { InlineKeyboard := some [some [b1, b2]] }

/-- Modelled from the spec: the transport-preparation failure (section 7), a
deferred read of a local file that fails. -/
inductive TransportPrepError where
  | readFailed (path : String)
  deriving DecidableEq, Repr

/-- Modelled from the spec: one part of a multipart body (section 4.4), a text
part under its wire key or a binary part with its file name and bytes. -/
inductive Part where
  | text (name : String) (value : WireValue)
  | binary (name : String) (filename : String) (bytes : List Byte)

/-- Modelled from the spec: the request payload (section 3), a URL-encoded body
made of the text and JSON entries or a multipart body made of parts.  The
boundary of a multipart body is generated and is not represented. -/
inductive RequestPayload where
  | urlEncoded (entries : WireMapping)
  | multipart (parts : List Part)

/-- The encoded value is a pending binary part. -/
def WireValue.isPendingPart : WireValue → Bool
  | .part _ _ => true
  | _ => false

/-- The mapping holds at least one pending binary part. -/
def hasPendingPart (m : WireMapping) : Bool :=
  m.any (fun e => e.2.isPendingPart)

/-- Every deferred read that the mapping asks for succeeds on this filesystem. -/
def readsSucceed (readFile : String → Option (List Byte)) (m : WireMapping) : Bool :=
  m.all (fun e =>
    match e.2 with
    | .part _ (.deferredRead path) => (readFile path).isSome
    | _ => true)

/-- The text part of an entry that is not a binary part. -/
def textPart (e : String × WireValue) : Part :=
  .text e.1 e.2

/-- Modelled from the spec: the part built from one entry (section 4.4).  A
pending binary part given in memory uses its bytes; one given by a path is read
now, from the filesystem `readFile`, and a failed read is a
transport-preparation failure; any other entry becomes a text part. -/
def buildPart (readFile : String → Option (List Byte)) (name : String) :
    WireValue → Except TransportPrepError Part
  | .part filename (.inMemory bytes) => .ok (.binary name filename bytes)
  | .part filename (.deferredRead path) =>
    match readFile path with
    | some bytes => .ok (.binary name filename bytes)
    | none => .error (.readFailed path)
  | .text s => .ok (.text name (.text s))
  | .floatText bits => .ok (.text name (.floatText bits))
  | .jsonText v => .ok (.text name (.jsonText v))

/-- Modelled from the spec: the parts of a multipart body, in the order of the
mapping; the first failed read ends the construction. -/
def buildParts (readFile : String → Option (List Byte)) :
    WireMapping → Except TransportPrepError (List Part)
  | [] => .ok []
  | (name, v) :: rest =>
    match buildPart readFile name v with
    | .error e => .error e
    | .ok p =>
      match buildParts readFile rest with
      | .error e => .error e
      | .ok ps => .ok (p :: ps)

/-- Modelled from the spec: the Request Builder `build(mapping)` (section 4.4).
Without a pending binary part the body is URL-encoded; with one or more it is
multipart, every entry becoming a part; a failed read yields no payload. -/
def build (readFile : String → Option (List Byte)) (m : WireMapping) :
    Except TransportPrepError RequestPayload :=
  if hasPendingPart m then
    match buildParts readFile m with
    | .ok ps => .ok (.multipart ps)
    | .error e => .error e
  else .ok (.urlEncoded m)

/-- The payload is a multipart body. -/
def RequestPayload.isMultipart : RequestPayload → Bool
  | .multipart _ => true
  | .urlEncoded _ => false

/-- The build produced a multipart body. -/
def producesMultipart : Except TransportPrepError RequestPayload → Bool
  | .ok p => p.isMultipart
  | .error _ => false

/-- The build produced a URL-encoded body. -/
def producesUrlEncoded : Except TransportPrepError RequestPayload → Bool
  | .ok p => !p.isMultipart
  | .error _ => false

/-- The part is a binary part. -/
def Part.isBinary : Part → Bool
  | .binary _ _ _ => true
  | .text _ _ => false

mutual
/-- Number of tagged fields of the list that are not at their zero value,
inside embedded groups included. -/
def nonZeroFields : List (FieldDecl × Value) → Nat
  | [] => 0
  | (d, v) :: rest =>
    (if d.query = recursiveTag then nonZeroIn v
     else if d.query = "" then 0
     else if isZero v then 0 else 1) + nonZeroFields rest
/-- Number of tagged fields of a struct value that are not at their zero value. -/
def nonZeroIn : Value → Nat
  | .struct fs => nonZeroFields fs
  | .str _ => 0
  | .int _ => 0
  | .bool _ => 0
  | .float _ => 0
  | .seq _ => 0
  | .markup _ => 0
  | .file _ => 0
  | .inlineKeyboard _ => 0
  | .external _ => 0
end

/-! ## Helper lemmas -/

theorem encodeFields_append (a b : List (FieldDecl × Value)) :
    encodeFields (a ++ b) = encodeFields a ++ encodeFields b := by
  induction a with
  | nil => simp [encodeFields]
  | cons p a ih =>
    obtain ⟨d, v⟩ := p
    simp [encodeFields, ih, List.append_assoc]

/-- Flattening of one group: a field tagged `recursive` that holds a struct
encodes as the fields of that struct put in its place. -/
theorem encodeFields_group (pre post group : List (FieldDecl × Value)) (d : FieldDecl)
    (h : d.query = recursiveTag) :
    encodeFields (pre ++ (d, Value.struct group) :: post)
      = encodeFields (pre ++ group ++ post) := by
  rw [encodeFields_append, encodeFields_append, encodeFields_append]
  simp [encodeFields, encode, h, List.append_assoc]

theorem wireKeysOfFields_append (a b : List (FieldDecl × GoType)) :
    wireKeysOfFields (a ++ b) = wireKeysOfFields a ++ wireKeysOfFields b := by
  induction a with
  | nil => simp [wireKeysOfFields]
  | cons p a ih =>
    obtain ⟨d, t⟩ := p
    simp [wireKeysOfFields, ih, List.append_assoc]

/-- The zero value of the embedded field `BaseOptions`, as `zeroValue` builds it
from the declaration, is the embedded group with its four fields at zero. -/
theorem zeroFields_embedded_BaseOptions :
    zeroFields [fld "BaseOptions" BaseOptions "recursive"]
      = [embeddedBaseOptions false 0 false none] := rfl

/-- Zero-value omission: a field at the zero value of its type stores nothing. -/
theorem encodeField_of_isZero (key : String) (v : Value) (h : isZero v = true) :
    encodeField key v = [] := by
  cases v with
  | str s => simp_all [isZero, encodeField]
  | int i => simp_all [isZero, encodeField]
  | bool b => simp_all [isZero, encodeField]
  | float bits => simp_all [isZero, encodeField]
  | seq xs => simp_all [isZero, encodeField]
  | markup m => cases m <;> simp_all [isZero, encodeField]
  | file f =>
    simp only [isZero, Bool.and_eq_true, decide_eq_true_eq] at h
    obtain ⟨⟨h1, h2⟩, h3⟩ := h
    simp [encodeField, resolve, InputFile.isRemoteID, InputFile.isLocalPath,
      InputFile.isInlineBytes, InputFile.hasContent, h1, h2, h3]
  | inlineKeyboard m => simp_all [isZero, encodeField]
  | external v => cases v <;> simp_all [isZero, encodeField]
  | struct fs => simp_all [isZero, encodeField]

/-! ## C1: populated alternatives of a constructed `InputFile` -/

/-- C1, as stated, fails: `NewInputFileID("")` returns an `InputFile` with no
alternative populated (every field is empty), so the count is 0, not 1. -/
theorem NewInputFileID_empty_populates_none :
    (NewInputFileID "").populatedCount = 0
      ∧ (NewInputFileID "").isRemoteID = false
      ∧ (NewInputFileID "").isLocalPath = false
      ∧ (NewInputFileID "").isInlineBytes = false
      ∧ ¬ ((NewInputFileID "").populatedCount = 1) := by
  decide

/-- C1, amended: for all arguments, an `InputFile` returned by one of the three
constructors never has more than one alternative populated, and it has exactly
one unless the arguments are all empty, in which case it has none.
`NewInputFileID` can only populate RemoteID, `NewInputFilePath` only LocalPath,
and `NewInputFileBytes` populates InlineBytes when the content is non-empty and
LocalPath when the content is empty and the name is not. -/
theorem constructors_populatedCount (id filePath fileName : String) (content : Slice Byte) :
    ((NewInputFileID id).populatedCount = if id = "" then 0 else 1)
      ∧ (NewInputFileID id).isRemoteID = decide (id ≠ "")
      ∧ ((NewInputFilePath filePath).populatedCount = if filePath = "" then 0 else 1)
      ∧ (NewInputFilePath filePath).isLocalPath = decide (filePath ≠ "")
      ∧ ((NewInputFileBytes fileName content).populatedCount
          = if fileName = "" ∧ Slice.len content = 0 then 0 else 1)
      ∧ (NewInputFileBytes fileName content).isRemoteID = false
      ∧ (NewInputFileBytes fileName content).isInlineBytes = decide (0 < Slice.len content)
      ∧ (NewInputFileBytes fileName content).isLocalPath
          = (decide (fileName ≠ "") && decide (Slice.len content = 0))
      ∧ (NewInputFileID id).populatedCount ≤ 1
      ∧ (NewInputFilePath filePath).populatedCount ≤ 1
      ∧ (NewInputFileBytes fileName content).populatedCount ≤ 1 := by
  have hlen : Slice.len (none : Slice Byte) = 0 := rfl
  by_cases h1 : id = "" <;> by_cases h2 : filePath = "" <;> by_cases h3 : fileName = ""
    <;> by_cases h4 : Slice.len content = 0
    <;> simp [NewInputFileID, NewInputFilePath, NewInputFileBytes, InputFile.populatedCount,
      InputFile.isRemoteID, InputFile.isLocalPath, InputFile.isInlineBytes,
      InputFile.hasContent, hlen, h1, h2, h3, h4, Nat.pos_iff_ne_zero]

/-! ## C2: populated sides of a constructed `MessageIDOptions` -/

/-- C2, as stated, fails: `NewMessageID(0, 0)` and `NewInlineMessageID("")`
return the zero value, in which neither side of the union is populated. -/
theorem NewMessageID_zero_populates_neither :
    (NewMessageID 0 0).populatedSides = 0
      ∧ (NewMessageID 0 0).pairPopulated = false
      ∧ (NewMessageID 0 0).inlinePopulated = false
      ∧ (NewInlineMessageID "").populatedSides = 0
      ∧ ¬ ((NewMessageID 0 0).populatedSides = 1) := by
  decide

/-- C2, amended: for all arguments, a value returned by `NewMessageID` or
`NewInlineMessageID` never has both sides populated; it has exactly one side
populated (its own) unless every argument is at its zero value, in which case
neither side is. -/
theorem constructors_populatedSides (chatID messageID : Int) (ID : String) :
    ((NewMessageID chatID messageID).populatedSides
        = if chatID = 0 ∧ messageID = 0 then 0 else 1)
      ∧ (NewMessageID chatID messageID).inlinePopulated = false
      ∧ ((NewInlineMessageID ID).populatedSides = if ID = "" then 0 else 1)
      ∧ (NewInlineMessageID ID).pairPopulated = false
      ∧ (NewMessageID chatID messageID).populatedSides ≤ 1
      ∧ (NewInlineMessageID ID).populatedSides ≤ 1 := by
  by_cases h1 : chatID = 0 <;> by_cases h2 : messageID = 0 <;> by_cases h3 : ID = ""
    <;> simp [NewMessageID, NewInlineMessageID, MessageIDOptions.populatedSides,
      MessageIDOptions.pairPopulated, MessageIDOptions.inlinePopulated, h1, h2, h3]

/-! ## C3: `NewInputFileID` -/

/-- C3, as stated, fails at the empty id: `NewInputFileID("")` is the zero
`InputFile`, the same value as `NewInputFilePath("")`, for which no resolver
branch applies, so it does not resolve to the plain text value "". -/
theorem NewInputFileID_empty_resolves_to_nothing :
    NewInputFileID "" = InputFile.zero
      ∧ NewInputFileID "" = NewInputFilePath ""
      ∧ resolve (NewInputFileID "") = none
      ∧ resolve (NewInputFileID "") ≠ some (Resolved.inlineValue "")
      ∧ encodeField "thumb" (Value.file (NewInputFileID "")) = [] := by
  refine ⟨rfl, rfl, by decide, by decide, rfl⟩

/-- C3, amended: for every string id, `NewInputFileID(id)` has its id field
equal to id and its path and content fields empty; it never resolves to a binary
part; and it resolves to the plain text value id when id is non-empty, to
nothing when id is empty. -/
theorem NewInputFileID_fields_and_resolve (id : String) :
    (NewInputFileID id).id = id
      ∧ (NewInputFileID id).path = ""
      ∧ (NewInputFileID id).content = none
      ∧ (∀ filename bytes, resolve (NewInputFileID id) ≠ some (Resolved.part filename bytes))
      ∧ resolve (NewInputFileID id)
          = if id = "" then none else some (Resolved.inlineValue id) := by
  have hlen : Slice.len (none : Slice Byte) = 0 := rfl
  refine ⟨rfl, rfl, rfl, ?_, ?_⟩
  · intro filename bytes
    by_cases h : id = "" <;>
      simp [resolve, NewInputFileID, InputFile.isRemoteID, InputFile.isLocalPath,
        InputFile.isInlineBytes, InputFile.hasContent, hlen, h]
  · by_cases h : id = "" <;>
      simp [resolve, NewInputFileID, InputFile.isRemoteID, InputFile.isLocalPath,
        InputFile.isInlineBytes, InputFile.hasContent, hlen, h]

/-! ## C4: no duplicate wire key -/

/-- C4: for every options struct declared in options.go, the list of wire keys
in which each field tagged `recursive` is replaced by the wire keys of its
embedded group (same level, no prefix) has no duplicate. -/
theorem wireKeys_nodup (t : GoType) (h : t ∈ optionsStructs) : (wireKeys t).Nodup := by
  revert t
  decide

/-- C4 at `AudioOptions`, which embeds `BaseOptions`: its eleven wire keys are
pairwise distinct. -/
theorem wireKeys_nodup_witness :
    AudioOptions ∈ optionsStructs
      ∧ wireKeys AudioOptions
          = ["disable_notification", "reply_to_message_id", "allow_sending_without_reply",
             "reply_markup", "parse_mode", "caption", "caption_entities", "duration",
             "performer", "title", "thumb"]
      ∧ (wireKeys AudioOptions).Nodup :=
  ⟨by simp [optionsStructs], by decide,
    wireKeys_nodup AudioOptions (by simp [optionsStructs])⟩

/-! ## C5: flattening transparency -/

/-- C5: for every options type that embeds `BaseOptions` with the tag
`recursive` (whatever fields are declared before and after it) and for all
values, the wire mapping is the one of the type that declares the four fields of
`BaseOptions` directly at that place with the same values; the same holds of the
wire keys of the two declarations. -/
theorem encode_embedded_BaseOptions (pre post : List (FieldDecl × Value))
    (disableNotification : Bool) (replyToMessageID : Int)
    (allowSendingWithoutReply : Bool) (replyMarkup : Option ReplyMarkup)
    (preDecl postDecl : List (FieldDecl × GoType)) (typeName : String) :
    encode (Value.struct (pre ++ embeddedBaseOptions disableNotification replyToMessageID
        allowSendingWithoutReply replyMarkup :: post))
      = encode (Value.struct (pre ++ baseOptionsFields disableNotification replyToMessageID
          allowSendingWithoutReply replyMarkup ++ post))
    ∧ wireKeys (GoType.struct typeName
        (preDecl ++ fld "BaseOptions" BaseOptions "recursive" :: postDecl))
      = wireKeys (GoType.struct typeName (preDecl ++ BaseOptions.fields ++ postDecl)) := by
  constructor
  · simp only [encode, embeddedBaseOptions]
    exact encodeFields_group pre post _ _ rfl
  · simp only [wireKeys]
    rw [wireKeysOfFields_append, wireKeysOfFields_append, wireKeysOfFields_append]
    simp [wireKeysOfFields, wireKeys, fld, recursiveTag, BaseOptions, GoType.fields,
      List.append_assoc]

/-! ## C6: query tags of the declared fields -/

/-- C6, as stated, fails: the field `Certificate InputFile` of `WebhookOptions`
is declared without a `query` tag, so a file-attachment field has no wire key. -/
theorem WebhookOptions_Certificate_untagged :
    WebhookOptions ∈ optionsStructs
      ∧ WebhookOptions.directTags = ["", "ip_address", "max_connections", "allowed_updates"]
      ∧ (WebhookOptions.fields.map (fun p => p.1)).head?
          = some { name := "Certificate", query := "" }
      ∧ "certificate" ∉ wireKeys WebhookOptions
      ∧ ¬ (∀ t ∈ optionsStructs, ∀ p ∈ t.fields, p.1.query ≠ "") := by
  refine ⟨by simp [optionsStructs], by decide, by decide, by decide, by decide⟩

/-- C6, amended: every field of every options struct in options.go carries a
non-empty `query` tag, with one exception, the field `Certificate` of
`WebhookOptions`, which has none. -/
theorem query_tag_empty_iff (t : GoType) (h : t ∈ optionsStructs) (p : FieldDecl × GoType)
    (hp : p ∈ t.fields) :
    p.1.query = "" ↔ (t.structName = "WebhookOptions" ∧ p.1.name = "Certificate") := by
  revert p
  revert t
  decide

/-- C6, amended, at the exceptional field: `Certificate` is a field of
`WebhookOptions`, an options struct, and its `query` tag is empty. -/
theorem query_tag_empty_iff_witness :
    WebhookOptions ∈ optionsStructs
      ∧ fld "Certificate" GoType.inputFile "" ∈ WebhookOptions.fields
      ∧ ((fld "Certificate" GoType.inputFile "").1.query = ""
          ↔ (WebhookOptions.structName = "WebhookOptions"
              ∧ (fld "Certificate" GoType.inputFile "").1.name = "Certificate")) :=
  ⟨by simp [optionsStructs], by simp [WebhookOptions, GoType.fields],
    query_tag_empty_iff WebhookOptions (by simp [optionsStructs])
      (fld "Certificate" GoType.inputFile "") (by simp [WebhookOptions, GoType.fields])⟩

/-! ## C7: zero-value omission -/

/-- C7: for every options struct with a `disable_notification` wire key, the
value with `DisableNotification = true` and every other field at its zero value
encodes to the mapping with the single entry `disable_notification = "true"`. -/
theorem encode_only_disable_notification (t : GoType) (h : t ∈ optionsStructs)
    (hk : "disable_notification" ∈ wireKeys t) :
    encodeAs t (setField "DisableNotification" (Value.bool true) (zeroValue t))
      = Except.ok [("disable_notification", WireValue.text "true")] := by
  simp only [optionsStructs, List.mem_cons, List.mem_singleton, List.not_mem_nil,
    or_false] at h
  rcases h with rfl | rfl | rfl | rfl | rfl | rfl | rfl | rfl | rfl | rfl | rfl | rfl
    | rfl | rfl | rfl | rfl | rfl | rfl | rfl | rfl | rfl | rfl | rfl | rfl
  all_goals first
    | rfl
    | exact absurd hk (by decide)

/-- C7 at `VideoOptions`, which has `disable_notification` through the embedded
`BaseOptions` and also holds a file attachment. -/
theorem encode_only_disable_notification_witness :
    VideoOptions ∈ optionsStructs
      ∧ "disable_notification" ∈ wireKeys VideoOptions
      ∧ encodeAs VideoOptions
          (setField "DisableNotification" (Value.bool true) (zeroValue VideoOptions))
        = Except.ok [("disable_notification", WireValue.text "true")] :=
  ⟨by simp [optionsStructs], by decide,
    encode_only_disable_notification VideoOptions (by simp [optionsStructs]) (by decide)⟩

/-! ## C8: the zero value of an options type -/

/-- C8: for every options bundle type, encoding the zero value of the type is
accepted (no configuration error) and yields the empty wire mapping; this
includes the types that hold a file attachment, whose zero value holds the zero
`InputFile`. -/
theorem encode_zeroValue (t : GoType) (h : t ∈ optionSetTypes) :
    encodeAs t (zeroValue t) = Except.ok []
      ∧ zeroValue GoType.inputFile = Value.file InputFile.zero
      ∧ InputFile.zero.populatedCount = 0 := by
  refine ⟨?_, rfl, by decide⟩
  simp only [optionSetTypes, List.mem_cons, List.mem_singleton, List.not_mem_nil,
    or_false] at h
  rcases h with rfl | rfl | rfl | rfl | rfl | rfl | rfl | rfl | rfl | rfl | rfl | rfl
    | rfl | rfl | rfl | rfl | rfl | rfl | rfl | rfl | rfl | rfl | rfl
  all_goals rfl

/-- C8 at `AudioOptions`, whose zero value holds the zero `InputFile` in `Thumb`. -/
theorem encode_zeroValue_witness :
    AudioOptions ∈ optionSetTypes
      ∧ encodeAs AudioOptions (zeroValue AudioOptions) = Except.ok [] :=
  ⟨by simp [optionSetTypes],
    (encode_zeroValue AudioOptions (by simp [optionSetTypes])).1⟩

/-! ## C9: validation of the message target -/

/-- C9: a `MessageIDOptions` value with both sides populated, or with neither,
fails validation with a configuration error and nothing is encoded; a value with
exactly one side populated passes and is encoded. -/
theorem encodeTarget_validates (o : MessageIDOptions) :
    ((o.pairPopulated = true ∧ o.inlinePopulated = true)
        ↔ encodeTarget o = Except.error (ConfigurationError.targetSides 2))
      ∧ ((o.pairPopulated = false ∧ o.inlinePopulated = false)
        ↔ encodeTarget o = Except.error (ConfigurationError.targetSides 0))
      ∧ (o.pairPopulated ≠ o.inlinePopulated
        ↔ (validateTarget o = Except.ok () ∧ encodeTarget o = Except.ok (encode o.toValue))) := by
  cases hp : o.pairPopulated <;> cases hi : o.inlinePopulated
    <;> simp [encodeTarget, validateTarget, MessageIDOptions.populatedSides, hp, hi]

/-! ## C10: `NewInputFileBytes` -/

/-- C10: for every file name and byte sequence, `NewInputFileBytes` returns an
`InputFile` whose path is the file name, whose content is the given sequence
(same bytes, same length, same order) and whose id is empty. -/
theorem NewInputFileBytes_fields (fileName : String) (content : Slice Byte) :
    (NewInputFileBytes fileName content).path = fileName
      ∧ (NewInputFileBytes fileName content).content = content
      ∧ Slice.len (NewInputFileBytes fileName content).content = Slice.len content
      ∧ (NewInputFileBytes fileName content).id = ""
      ∧ NewInputFileBytes fileName content
          = { InputFile.zero with path := fileName, content := content } :=
  ⟨rfl, rfl, rfl, rfl, rfl⟩

/-! ## C11: each `MessageIDOptions` constructor fills only its own side -/

/-- C11: for all arguments, `NewMessageID` stores chatID and messageID unchanged
and leaves inlineMessageID empty, `NewInlineMessageID` stores ID unchanged and
leaves chatID and messageID at 0; hence no constructor output has both sides
populated. -/
theorem constructors_fill_own_side (chatID messageID : Int) (ID : String) :
    (NewMessageID chatID messageID).chatID = chatID
      ∧ (NewMessageID chatID messageID).messageID = messageID
      ∧ (NewMessageID chatID messageID).inlineMessageID = ""
      ∧ (NewInlineMessageID ID).inlineMessageID = ID
      ∧ (NewInlineMessageID ID).chatID = 0
      ∧ (NewInlineMessageID ID).messageID = 0
      ∧ ¬ ((NewMessageID chatID messageID).pairPopulated = true
            ∧ (NewMessageID chatID messageID).inlinePopulated = true)
      ∧ ¬ ((NewInlineMessageID ID).pairPopulated = true
            ∧ (NewInlineMessageID ID).inlinePopulated = true) := by
  refine ⟨rfl, rfl, rfl, rfl, rfl, rfl, ?_, ?_⟩
  · simp [NewMessageID, MessageIDOptions.inlinePopulated]
  · simp [NewInlineMessageID, MessageIDOptions.pairPopulated]

/-! ## C16: `NewInputFileBytes` with no content and `NewInputFilePath` -/

/-- C16: for every file name, `NewInputFileBytes(name, nil)` is the same
`InputFile` value as `NewInputFilePath(name)`, so the value does not tell which
of the two constructors built it (they are not jointly injective), and the
resolver treats both as a local path. -/
theorem NewInputFileBytes_nil_eq_NewInputFilePath (name : String) :
    NewInputFileBytes name none = NewInputFilePath name
      ∧ (NewInputFileBytes name none).isInlineBytes = false
      ∧ (NewInputFileBytes name none).isLocalPath = (NewInputFilePath name).isLocalPath
      ∧ resolve (NewInputFileBytes name none) = resolve (NewInputFilePath name) :=
  ⟨rfl, rfl, rfl, rfl⟩

/-! ## C17: when the two `MessageIDOptions` constructors agree -/

/-- C17: for all arguments, `NewMessageID(chatID, messageID)` equals
`NewInlineMessageID(ID)` exactly when chatID = 0, messageID = 0 and ID is the
empty string; in every other case the two values are distinct. -/
theorem NewMessageID_eq_NewInlineMessageID_iff (chatID messageID : Int) (ID : String) :
    NewMessageID chatID messageID = NewInlineMessageID ID
      ↔ (chatID = 0 ∧ messageID = 0 ∧ ID = "") := by
  simp only [NewMessageID, NewInlineMessageID, MessageIDOptions.mk.injEq]
  constructor
  · rintro ⟨h1, h2, h3⟩
    exact ⟨h1, h2, h3.symm⟩
  · rintro ⟨h1, h2, h3⟩
    exact ⟨h1, h2, h3.symm⟩

/-! ## Helper lemmas on the JSON text -/

/-- The text of a non-empty object starts with an opening brace, a double quote
and the name of its first member. -/
theorem render_obj_cons_data (quote : String → String) (k : String) (v : Json)
    (rest : List (String × Json)) :
    ∃ tail, (Json.render quote (Json.obj ((k, v) :: rest))).data
      = '\x7b' :: '"' :: (k.data ++ tail) := by
  refine ⟨("\":" ++ Json.render quote v
      ++ (if rest.isEmpty then "" else "," ++ renderMembers quote rest) ++ "\x7d").data, ?_⟩
  simp [Json.render, renderMembers, String.data_append, List.append_assoc]

/-- The first member of the encoding of a reply markup is its discriminating
key: the first field of each variant is not tagged `omitempty`. -/
theorem replyMarkup_toJson_first_member (extEmpty : Json → Bool) (m : ReplyMarkup) :
    ∃ v rest, m.toJson extEmpty = Json.obj ((m.discriminatingKey, v) :: rest) := by
  cases m with
  | replyKeyboardMarkup m =>
    exact ⟨_, _, rfl⟩
  | replyKeyboardRemove m =>
    exact ⟨_, _, rfl⟩
  | inlineKeyboardMarkup m =>
    exact ⟨_, _, rfl⟩
  | forceReply m =>
    exact ⟨_, _, rfl⟩

/-- The third character of the text of a reply markup is the first letter of
its discriminating key. -/
theorem replyMarkup_render_third_char (quote : String → String) (extEmpty : Json → Bool)
    (m : ReplyMarkup) :
    (Json.render quote (m.toJson extEmpty)).data.get? 2 = m.discriminatingKey.data.head? := by
  obtain ⟨v, rest, h⟩ := replyMarkup_toJson_first_member extEmpty m
  obtain ⟨tail, ht⟩ := render_obj_cons_data quote m.discriminatingKey v rest
  rw [h, ht]
  cases m <;> simp [ReplyMarkup.discriminatingKey]

/-! ## C18: the discriminating key of each reply markup variant -/

/-- C18: for every value of each of the four reply markup variants, zero values
included, the encoding per the `json` tags has the variant's own discriminating
key among its member names and none of the three others; and two values of
different variants never have the same JSON text. -/
theorem replyMarkup_discriminatingKey_only (extEmpty : Json → Bool) (quote : String → String)
    (m other : ReplyMarkup) (h : m.discriminatingKey ≠ other.discriminatingKey) :
    discriminatingKeys.filter (fun k => decide (k ∈ (m.toJson extEmpty).topKeys))
        = [m.discriminatingKey]
      ∧ m.discriminatingKey ∈ (m.toJson extEmpty).topKeys
      ∧ other.discriminatingKey ∉ (m.toJson extEmpty).topKeys
      ∧ Json.render quote (m.toJson extEmpty) ≠ Json.render quote (other.toJson extEmpty) := by
  have hkeys : discriminatingKeys.filter (fun k => decide (k ∈ (m.toJson extEmpty).topKeys))
      = [m.discriminatingKey] := by
    cases m with
    | replyKeyboardMarkup m =>
      obtain ⟨kb, rk, otk, ifp, sel⟩ := m
      cases rk <;> cases otk <;> cases sel <;> by_cases hp : ifp = "" <;>
        simp [ReplyMarkup.toJson, ReplyKeyboardMarkup.toJson, jsonMember, Json.topKeys,
          discriminatingKeys, ReplyMarkup.discriminatingKey, List.filter, hp]
    | replyKeyboardRemove m =>
      simp [ReplyMarkup.toJson, ReplyKeyboardRemove.toJson, jsonMember, Json.topKeys,
        discriminatingKeys, ReplyMarkup.discriminatingKey, List.filter]
    | inlineKeyboardMarkup m =>
      simp [ReplyMarkup.toJson, InlineKeyboardMarkup.toJson, jsonMember, Json.topKeys,
        discriminatingKeys, ReplyMarkup.discriminatingKey, List.filter]
    | forceReply m =>
      obtain ⟨fr, ifp, sel⟩ := m
      by_cases hp : ifp = "" <;>
        simp [ReplyMarkup.toJson, ForceReply.toJson, jsonMember, Json.topKeys,
          discriminatingKeys, ReplyMarkup.discriminatingKey, List.filter, hp]
  have hmem : ∀ k, k ∈ discriminatingKeys → k ∈ (m.toJson extEmpty).topKeys
      → k = m.discriminatingKey := by
    intro k hk hin
    have : k ∈ discriminatingKeys.filter
        (fun k => decide (k ∈ (m.toJson extEmpty).topKeys)) := by
      simp [List.mem_filter, hk, hin]
    rw [hkeys] at this
    simpa using this
  have hown : m.discriminatingKey ∈ (m.toJson extEmpty).topKeys := by
    obtain ⟨v, rest, hv⟩ := replyMarkup_toJson_first_member extEmpty m
    simp [hv, Json.topKeys]
  have hother : other.discriminatingKey ∈ discriminatingKeys := by
    cases other <;> simp [ReplyMarkup.discriminatingKey, discriminatingKeys]
  refine ⟨hkeys, hown, fun hin => h (hmem _ hother hin).symm, ?_⟩
  intro heq
  have h3 := replyMarkup_render_third_char quote extEmpty m
  rw [heq, replyMarkup_render_third_char quote extEmpty other] at h3
  cases m <;> cases other <;> simp [ReplyMarkup.discriminatingKey] at h h3

/-- C18 at two zero values: the zero `ReplyKeyboardRemove` and the zero
`ForceReply` have the texts written out here, which differ. -/
theorem replyMarkup_discriminatingKey_only_witness :
    Json.render id (ReplyMarkup.toJson (fun _ => true)
        (ReplyMarkup.replyKeyboardRemove { RemoveKeyboard := false, Selective := false }))
      = "\x7b\"remove_keyboard\":false,\"selective\":false\x7d"
    ∧ Json.render id (ReplyMarkup.toJson (fun _ => true)
        (ReplyMarkup.forceReply
          { ForceReply := false, InputFieldPlaceholder := "", Selective := false }))
      = "\x7b\"force_reply\":false,\"selective\":false\x7d"
    ∧ Json.render id (ReplyMarkup.toJson (fun _ => true)
        (ReplyMarkup.replyKeyboardRemove { RemoveKeyboard := false, Selective := false }))
      ≠ Json.render id (ReplyMarkup.toJson (fun _ => true)
        (ReplyMarkup.forceReply
          { ForceReply := false, InputFieldPlaceholder := "", Selective := false })) :=
  ⟨by decide, by decide,
    (replyMarkup_discriminatingKey_only (fun _ => true) id
      (ReplyMarkup.replyKeyboardRemove { RemoveKeyboard := false, Selective := false })
      (ReplyMarkup.forceReply
        { ForceReply := false, InputFieldPlaceholder := "", Selective := false })
      (by decide)).2.2.2⟩

/-! ## C19: the poll type `Any` -/

/-- C19: the constant `Any` is the zero value of `PollType`, the empty string,
so for every `KeyboardButton` setting `RequestPoll = Any` gives the encoding of
the button with `RequestPoll` unset, which has no `request_poll` member; `Quiz`
and `Regular` are non-empty and distinct, and a button with either of them
always has the `request_poll` member with that value. -/
theorem requestPoll_Any_omitted (b : KeyboardButton) :
    Any = PollType.zero
      ∧ Any = ""
      ∧ ({ b with RequestPoll := Any } : KeyboardButton).toJson
          = ({ b with RequestPoll := PollType.zero } : KeyboardButton).toJson
      ∧ "request_poll" ∉ (({ b with RequestPoll := Any } : KeyboardButton).toJson).topKeys
      ∧ Quiz ≠ "" ∧ Regular ≠ "" ∧ Quiz ≠ Regular
      ∧ (∃ pre, ({ b with RequestPoll := Quiz } : KeyboardButton).toJson
          = Json.obj (pre ++ [("request_poll", Json.str "quiz")])
            ∧ "request_poll" ∉ pre.map (fun kv => kv.1))
      ∧ (∃ pre, ({ b with RequestPoll := Regular } : KeyboardButton).toJson
          = Json.obj (pre ++ [("request_poll", Json.str "regular")])
            ∧ "request_poll" ∉ pre.map (fun kv => kv.1)) := by
  obtain ⟨text, rc, rl, rp⟩ := b
  refine ⟨rfl, rfl, rfl, ?_, by decide, by decide, by decide, ?_, ?_⟩
  · cases rc <;> cases rl <;>
      simp [KeyboardButton.toJson, jsonMember, Json.topKeys, Any]
  · refine ⟨jsonMember "text" false (decide (text = "")) (.str text)
        ++ jsonMember "request_contact" true (!rc) (.bool rc)
        ++ jsonMember "request_location" true (!rl) (.bool rl), ?_, ?_⟩
    · simp [KeyboardButton.toJson, jsonMember, Quiz]
    · cases rc <;> cases rl <;> simp [jsonMember]
  · refine ⟨jsonMember "text" false (decide (text = "")) (.str text)
        ++ jsonMember "request_contact" true (!rc) (.bool rc)
        ++ jsonMember "request_location" true (!rl) (.bool rl), ?_, ?_⟩
    · simp [KeyboardButton.toJson, jsonMember, Regular]
    · cases rc <;> cases rl <;> simp [jsonMember]

/-! ## C13: `RemoveKeyboard` of a carried `ReplyKeyboardRemove` -/

/-- C13 fails on the code: the zero value `ReplyKeyboardRemove{}`, whose
`RemoveKeyboard` is false, is a value of the type, is carried as a `ReplyMarkup`
by a `BaseOptions`, and is encoded with `remove_keyboard` false, although the
doc comment of the type says that `RemoveKeyboard` must be true. -/
theorem ReplyKeyboardRemove_zero_is_carried :
    ({ RemoveKeyboard := false, Selective := false } : ReplyKeyboardRemove).RemoveKeyboard = false
      ∧ (ReplyMarkup.replyKeyboardRemove { RemoveKeyboard := false, Selective := false }).typeName
          = "ReplyKeyboardRemove"
      ∧ ReplyMarkup.toJson (fun _ => true)
          (ReplyMarkup.replyKeyboardRemove { RemoveKeyboard := false, Selective := false })
        = Json.obj [("remove_keyboard", Json.bool false), ("selective", Json.bool false)]
      ∧ encode (Value.struct (baseOptionsFields false 0 false
          (some (ReplyMarkup.replyKeyboardRemove { RemoveKeyboard := false, Selective := false }))))
        = [("reply_markup", WireValue.jsonText (Value.markup
            (some (ReplyMarkup.replyKeyboardRemove
              { RemoveKeyboard := false, Selective := false }))))] :=
  ⟨rfl, rfl, rfl, rfl⟩

/-! ## C12: the types that implement `ReplyMarkup` -/

/-- C12: among the types declared in options.go and types.go, exactly four can
be carried as a `ReplyMarkup`: `ReplyKeyboardMarkup`, `ReplyKeyboardRemove`,
`InlineKeyboardMarkup` and `ForceReply`; `Keyboard`, `KeyboardRemove` and
`InlineKeyboard` of types.go are declared and cannot; every `ReplyMarkup` value
is of one of the four types; and a `BaseOptions` value, which has one field of
that interface type, carries at most one variant. -/
theorem replyMarkup_variants_closed (m : ReplyMarkup) (disableNotification : Bool)
    (replyToMessageID : Int) (allowSendingWithoutReply : Bool)
    (replyMarkup : Option ReplyMarkup) :
    (declaredTypes.filter implementsReplyMarkup).map (fun d => d.name)
        = ["ReplyKeyboardMarkup", "ReplyKeyboardRemove", "InlineKeyboardMarkup", "ForceReply"]
      ∧ (declaredTypes.filter (fun d => !implementsReplyMarkup d)).length = 84
      ∧ ((declaredTypes.filter (fun d => !implementsReplyMarkup d)).map (fun d => d.name)).filter
          (fun n => decide (n ∈ ["Keyboard", "KeyboardRemove", "InlineKeyboard"]))
        = ["Keyboard", "KeyboardRemove", "InlineKeyboard"]
      ∧ m.typeName ∈ (declaredTypes.filter implementsReplyMarkup).map (fun d => d.name)
      ∧ (BaseOptions.fields.filter (fun p => p.2.isReplyMarkup)).length = 1
      ∧ (carriedVariants (baseOptionsFields disableNotification replyToMessageID
          allowSendingWithoutReply replyMarkup)).length ≤ 1
      ∧ carriedVariants (baseOptionsFields disableNotification replyToMessageID
          allowSendingWithoutReply replyMarkup)
        = replyMarkup.toList.map ReplyMarkup.typeName := by
  have h4 : (declaredTypes.filter implementsReplyMarkup).map (fun d => d.name)
      = ["ReplyKeyboardMarkup", "ReplyKeyboardRemove", "InlineKeyboardMarkup", "ForceReply"] := by
    decide
  refine ⟨h4, by decide, by decide, ?_, by decide, ?_, ?_⟩
  · rw [h4]
    cases m <;> simp [ReplyMarkup.typeName]
  · cases replyMarkup <;> simp [carriedVariants, baseOptionsFields]
  · cases replyMarkup <;> simp [carriedVariants, baseOptionsFields]

/-! ## C14: an inline keyboard in the wire mapping -/

/-- Fields that hold plain values store no markup entry. -/
theorem markupEntries_of_allPlain (fs : List (FieldDecl × Value)) (h : allPlain fs = true) :
    markupEntries (encodeFields fs) = [] := by
  induction fs with
  | nil => simp [encodeFields, markupEntries]
  | cons p fs ih =>
    obtain ⟨d, v⟩ := p
    simp only [allPlain, List.all_cons, Bool.and_eq_true] at h
    have ih2 := ih (by simpa [allPlain] using h.2)
    have hv := h.1
    simp only [markupEntries] at ih2 ⊢
    simp only [encodeFields, List.filter_append, ih2, List.append_nil]
    cases v with
    | str s => by_cases hs : s = "" <;> split <;> try split
               all_goals simp [encode, encodeField, hs, WireValue.isMarkupJson]
    | int i => by_cases hs : i = 0 <;> split <;> try split
               all_goals simp [encode, encodeField, hs, WireValue.isMarkupJson]
    | bool b => cases b <;> split <;> try split
                all_goals simp [encode, encodeField, WireValue.isMarkupJson]
    | float bits => by_cases hs : bits = 0 <;> split <;> try split
                    all_goals simp [encode, encodeField, hs, WireValue.isMarkupJson]
    | seq xs => by_cases hs : Slice.len xs = 0 <;> split <;> try split
                all_goals simp [encode, encodeField, hs, WireValue.isMarkupJson]
    | markup m => simp [Value.isPlain] at hv
    | file f =>
      split
      · simp [encode]
      · split
        · simp
        · simp only [encodeField]
          cases resolve f with
          | none => simp
          | some r => cases r <;> simp [WireValue.isMarkupJson]
    | inlineKeyboard m => simp [Value.isPlain] at hv
    | external v => cases v <;> split <;> try split
                    all_goals simp [encode, encodeField, WireValue.isMarkupJson]
    | struct fs => simp [Value.isPlain] at hv

/-- The codec writes the members of a button in the declared order, and leaves
out `login_url` and `callback_game` exactly when the `omitempty` test of their
type finds the value empty. -/
theorem inlineKeyboardButton_toJson_members (extEmpty : Json → Bool)
    (b : InlineKeyboardButton) :
    b.toJson extEmpty = Json.obj (b.members (extEmpty b.LoginURL) (extEmpty b.CallbackGame)) := by
  obtain ⟨text, url, login, cb, siq, siqc, game, pay⟩ := b
  cases pay <;> by_cases h1 : url = "" <;> by_cases h2 : cb = "" <;> by_cases h3 : siq = ""
    <;> by_cases h4 : siqc = "" <;> cases h5 : extEmpty login <;> cases h6 : extEmpty game
    <;> simp [InlineKeyboardButton.toJson, InlineKeyboardButton.members, jsonMember,
      h1, h2, h3, h4, h5, h6]

/-- The JSON text of a markup entry that holds one row of two buttons. -/
theorem wireText_oneRowKeyboard (quote : String → String) (extEmpty : Json → Bool)
    (b1 b2 : InlineKeyboardButton) :
    wireText quote extEmpty (WireValue.jsonText (Value.markup
        (some (ReplyMarkup.inlineKeyboardMarkup (oneRowKeyboard b1 b2)))))
      = some (keyboardText quote (b1.members (extEmpty b1.LoginURL) (extEmpty b1.CallbackGame))
          (b2.members (extEmpty b2.LoginURL) (extEmpty b2.CallbackGame)))
    ∧ wireText quote extEmpty (WireValue.jsonText
        (Value.inlineKeyboard (oneRowKeyboard b1 b2)))
      = some (keyboardText quote (b1.members (extEmpty b1.LoginURL) (extEmpty b1.CallbackGame))
          (b2.members (extEmpty b2.LoginURL) (extEmpty b2.CallbackGame))) := by
  have hdoc : (oneRowKeyboard b1 b2).toJson extEmpty
      = Json.obj [("inline_keyboard", Json.arr [Json.arr
          [Json.obj (b1.members (extEmpty b1.LoginURL) (extEmpty b1.CallbackGame)),
           Json.obj (b2.members (extEmpty b2.LoginURL) (extEmpty b2.CallbackGame))]])] := by
    simp [InlineKeyboardMarkup.toJson, oneRowKeyboard, jsonMember, jsonSlice,
      inlineKeyboardButton_toJson_members]
  constructor
  · simp only [wireText, jsonOf, ReplyMarkup.toJson, hdoc, Option.map_some', keyboardText]
  · simp only [wireText, jsonOf, hdoc, Option.map_some', keyboardText]

/-- The markup entries of the four fields of a `BaseOptions` that carries a
variant: the one entry `reply_markup`. -/
theorem markupEntries_baseOptionsFields (disableNotification : Bool) (replyToMessageID : Int)
    (allowSendingWithoutReply : Bool) (m : ReplyMarkup) :
    markupEntries (encodeFields (baseOptionsFields disableNotification replyToMessageID
        allowSendingWithoutReply (some m)))
      = [("reply_markup", WireValue.jsonText (Value.markup (some m)))] := by
  cases disableNotification <;> cases allowSendingWithoutReply
    <;> by_cases h : replyToMessageID = 0
    <;> simp [markupEntries, encodeFields, encodeField, baseOptionsFields, recursiveTag, h,
      WireValue.isMarkupJson]

/-- The markup entries of a field of type `InlineKeyboardMarkup` tagged
`reply_markup` that holds one row of two buttons: the one entry `reply_markup`. -/
theorem markupEntries_direct_keyboard (b1 b2 : InlineKeyboardButton) :
    markupEntries (encodeFields
        [(({ name := "ReplyMarkup", query := "reply_markup" } : FieldDecl),
          Value.inlineKeyboard (oneRowKeyboard b1 b2))])
      = [("reply_markup", WireValue.jsonText (Value.inlineKeyboard (oneRowKeyboard b1 b2)))] := by
  simp [markupEntries, encodeFields, encodeField, recursiveTag, oneRowKeyboard, Slice.len,
    WireValue.isMarkupJson]

/-- C14, as stated, fails on the keys of a button when `LoginURL` and
`CallbackGame`, which the button holds by value (options.go, lines 137 and 141),
are struct types: `omitempty` never leaves out a struct value, so a button with
only its text and callback data set, whose two by-value fields hold the zero
value (written as the empty object), is encoded with the members `login_url` and
`callback_game` as well, although these fields were not set. -/
theorem unset_by_value_fields_are_written :
    isEmptyObject (textDataButton "Yes" "y" (Json.obj [])).LoginURL = true
    ∧ isEmptyObject (textDataButton "Yes" "y" (Json.obj [])).CallbackGame = true
    ∧ ((textDataButton "Yes" "y" (Json.obj [])).toJson omitemptyOfStruct).topKeys
        = ["text", "login_url", "callback_data", "callback_game"]
    ∧ ((textDataButton "Yes" "y" (Json.obj [])).claimedJson isEmptyObject).topKeys
        = ["text", "callback_data"]
    ∧ Json.render plainQuote ((textDataButton "Yes" "y" (Json.obj [])).toJson omitemptyOfStruct)
        = "\x7b\"text\":\"Yes\",\"login_url\":\x7b\x7d,\"callback_data\":\"y\",\"callback_game\":\x7b\x7d\x7d"
    ∧ Json.render plainQuote ((textDataButton "Yes" "y" (Json.obj [])).claimedJson isEmptyObject)
        = "\x7b\"text\":\"Yes\",\"callback_data\":\"y\"\x7d"
    ∧ (markupEntries (encode (Value.struct (baseOptionsFields false 0 false
          (some (ReplyMarkup.inlineKeyboardMarkup (oneRowKeyboard
            (textDataButton "Yes" "y" (Json.obj []))
            (textDataButton "No" "n" (Json.obj []))))))))).map
        (fun e => (e.1, wireText plainQuote omitemptyOfStruct e.2))
      = [("reply_markup", some
          "\x7b\"inline_keyboard\":[[\x7b\"text\":\"Yes\",\"login_url\":\x7b\x7d,\"callback_data\":\"y\",\"callback_game\":\x7b\x7d\x7d,\x7b\"text\":\"No\",\"login_url\":\x7b\x7d,\"callback_data\":\"n\",\"callback_game\":\x7b\x7d\x7d]]\x7d")] := by
  refine ⟨rfl, rfl, by decide, by decide, by decide, by decide, rfl⟩

/-- C14, amended: for every options bundle whose `ReplyMarkup` is an inline
keyboard with one row of two buttons (whether the markup field comes from the
embedded `BaseOptions`, is declared in `BaseOptions` itself, or has the type
`InlineKeyboardMarkup`), the other fields being plain, the wire mapping has
exactly one markup-valued entry, under the key `reply_markup`, and its value is
the JSON text of the keyboard: an object with the single member
`inline_keyboard` holding one array of two button objects.  Each button object
has its `text` member, the members of the optional string and boolean fields
that were set, and the members `login_url` and `callback_game` of the fields held
by value unless the `omitempty` test of their type finds the value empty. -/
theorem encode_inline_keyboard (extEmpty : Json → Bool) (quote : String → String)
    (pre post : List (FieldDecl × Value))
    (b1 b2 : InlineKeyboardButton) (disableNotification : Bool) (replyToMessageID : Int)
    (allowSendingWithoutReply : Bool)
    (hpre : allPlain pre = true) (hpost : allPlain post = true) :
    (markupEntries (encode (Value.struct (pre ++ embeddedBaseOptions disableNotification
        replyToMessageID allowSendingWithoutReply
        (some (ReplyMarkup.inlineKeyboardMarkup (oneRowKeyboard b1 b2))) :: post)))).map
        (fun e => (e.1, wireText quote extEmpty e.2))
      = [("reply_markup", some (keyboardText quote
          (b1.members (extEmpty b1.LoginURL) (extEmpty b1.CallbackGame))
          (b2.members (extEmpty b2.LoginURL) (extEmpty b2.CallbackGame))))]
    ∧ (markupEntries (encode (Value.struct (pre ++ baseOptionsFields disableNotification
        replyToMessageID allowSendingWithoutReply
        (some (ReplyMarkup.inlineKeyboardMarkup (oneRowKeyboard b1 b2))) ++ post)))).map
        (fun e => (e.1, wireText quote extEmpty e.2))
      = [("reply_markup", some (keyboardText quote
          (b1.members (extEmpty b1.LoginURL) (extEmpty b1.CallbackGame))
          (b2.members (extEmpty b2.LoginURL) (extEmpty b2.CallbackGame))))]
    ∧ (markupEntries (encode (Value.struct (pre ++
        ({ name := "ReplyMarkup", query := "reply_markup" },
          Value.inlineKeyboard (oneRowKeyboard b1 b2)) :: post)))).map
        (fun e => (e.1, wireText quote extEmpty e.2))
      = [("reply_markup", some (keyboardText quote
          (b1.members (extEmpty b1.LoginURL) (extEmpty b1.CallbackGame))
          (b2.members (extEmpty b2.LoginURL) (extEmpty b2.CallbackGame))))]
    ∧ b1.toJson extEmpty
        = Json.obj (b1.members (extEmpty b1.LoginURL) (extEmpty b1.CallbackGame))
    ∧ b2.toJson extEmpty
        = Json.obj (b2.members (extEmpty b2.LoginURL) (extEmpty b2.CallbackGame)) := by
  have hflat : markupEntries (encodeFields (pre ++ baseOptionsFields disableNotification
        replyToMessageID allowSendingWithoutReply
        (some (ReplyMarkup.inlineKeyboardMarkup (oneRowKeyboard b1 b2))) ++ post))
      = [("reply_markup", WireValue.jsonText (Value.markup
          (some (ReplyMarkup.inlineKeyboardMarkup (oneRowKeyboard b1 b2)))))] := by
    rw [encodeFields_append, encodeFields_append]
    have h1 := markupEntries_of_allPlain pre hpre
    have h2 := markupEntries_of_allPlain post hpost
    have h3 := markupEntries_baseOptionsFields disableNotification replyToMessageID
      allowSendingWithoutReply (ReplyMarkup.inlineKeyboardMarkup (oneRowKeyboard b1 b2))
    simp only [markupEntries] at h1 h2 h3 ⊢
    simp [List.filter_append, h1, h2, h3]
  have hdirect : markupEntries (encodeFields (pre ++
        (({ name := "ReplyMarkup", query := "reply_markup" } : FieldDecl),
          Value.inlineKeyboard (oneRowKeyboard b1 b2)) :: post))
      = [("reply_markup", WireValue.jsonText
          (Value.inlineKeyboard (oneRowKeyboard b1 b2)))] := by
    have hx : pre ++ (({ name := "ReplyMarkup", query := "reply_markup" } : FieldDecl),
          Value.inlineKeyboard (oneRowKeyboard b1 b2)) :: post
        = pre ++ [(({ name := "ReplyMarkup", query := "reply_markup" } : FieldDecl),
            Value.inlineKeyboard (oneRowKeyboard b1 b2))] ++ post := by simp
    rw [hx, encodeFields_append, encodeFields_append]
    have h1 := markupEntries_of_allPlain pre hpre
    have h2 := markupEntries_of_allPlain post hpost
    have h3 := markupEntries_direct_keyboard b1 b2
    simp only [markupEntries] at h1 h2 h3 ⊢
    simp [List.filter_append, h1, h2, h3]
  have htext := wireText_oneRowKeyboard quote extEmpty b1 b2
  refine ⟨?_, ?_, ?_, inlineKeyboardButton_toJson_members extEmpty b1,
    inlineKeyboardButton_toJson_members extEmpty b2⟩
  · simp only [encode, embeddedBaseOptions]
    rw [encodeFields_group pre post _ _ rfl, hflat]
    simp only [List.map_cons, List.map_nil, htext.1]
  · simp only [encode]
    rw [hflat]
    simp only [List.map_cons, List.map_nil, htext.1]
  · simp only [encode]
    rw [hdirect]
    simp only [List.map_cons, List.map_nil, htext.2]

/-- C14, amended, at a `MessageOptions` value whose other fields are zero, with
the buttons "Yes" (callback data "y") and "No" (callback data "n") whose
by-value fields hold nil pointers: the one markup entry is `reply_markup` and
its text is written out. -/
theorem encode_inline_keyboard_witness :
    allPlain ([] : List (FieldDecl × Value)) = true
      ∧ allPlain (zeroFields (MessageOptions.fields.drop 1)) = true
      ∧ zeroValue MessageOptions
          = Value.struct ([] ++ embeddedBaseOptions false 0 false none
              :: zeroFields (MessageOptions.fields.drop 1))
      ∧ (markupEntries (encode (Value.struct ([] ++ embeddedBaseOptions false 0 false
          (some (ReplyMarkup.inlineKeyboardMarkup (oneRowKeyboard
            (textDataButton "Yes" "y" Json.null) (textDataButton "No" "n" Json.null))))
          :: zeroFields (MessageOptions.fields.drop 1))))).map
          (fun e => (e.1, wireText plainQuote omitemptyOfPointer e.2))
        = [("reply_markup", some
            "\x7b\"inline_keyboard\":[[\x7b\"text\":\"Yes\",\"callback_data\":\"y\"\x7d,\x7b\"text\":\"No\",\"callback_data\":\"n\"\x7d]]\x7d")] :=
  ⟨rfl, rfl, rfl,
    (encode_inline_keyboard omitemptyOfPointer plainQuote
      [] (zeroFields (MessageOptions.fields.drop 1))
      (textDataButton "Yes" "y" Json.null) (textDataButton "No" "n" Json.null)
      false 0 false rfl rfl).1.trans rfl⟩

/-! ## C15: the request builder -/

/-- A tagged field stores one entry, or none when it is at its zero value. -/
theorem encodeField_length (key : String) (v : Value) :
    (encodeField key v).length = if isZero v then 0 else 1 := by
  cases v with
  | str s => by_cases h : s = "" <;> simp [isZero, encodeField, h]
  | int i => by_cases h : i = 0 <;> simp [isZero, encodeField, h]
  | bool b => cases b <;> simp [isZero, encodeField]
  | float bits => by_cases h : bits = 0 <;> simp [isZero, encodeField, h]
  | seq xs => by_cases h : Slice.len xs = 0 <;> simp [isZero, encodeField, h]
  | markup m => cases m <;> simp [isZero, encodeField]
  | file f =>
    obtain ⟨id, path, content⟩ := f
    by_cases h1 : id = "" <;> by_cases h2 : path = "" <;> by_cases h3 : Slice.len content = 0
      <;> simp [isZero, encodeField, resolve, InputFile.isRemoteID, InputFile.isLocalPath,
        InputFile.isInlineBytes, InputFile.hasContent, h1, h2, h3, Nat.pos_iff_ne_zero]
  | inlineKeyboard m =>
    by_cases h : Slice.len m.InlineKeyboard = 0 <;> simp [isZero, encodeField, h]
  | external v => cases v <;> simp [isZero, encodeField]
  | struct fs => cases h : allZero fs <;> simp [isZero, encodeField, h]

mutual
/-- The mapping of a field list has one entry per tagged field that is not at
its zero value. -/
theorem encodeFields_length : ∀ fs : List (FieldDecl × Value),
    (encodeFields fs).length = nonZeroFields fs
  | [] => by simp [encodeFields, nonZeroFields]
  | (d, v) :: rest => by
    have ih := encodeFields_length rest
    have iv := encode_length v
    by_cases h1 : d.query = recursiveTag
    · simp [encodeFields, nonZeroFields, h1, ih, iv]
    · by_cases h2 : d.query = ""
      · have h3 : ¬ (("" : String) = recursiveTag) := by decide
        simp [encodeFields, nonZeroFields, h2, h3, ih]
      · simp [encodeFields, nonZeroFields, h1, h2, ih, encodeField_length]
/-- The mapping of a struct value has one entry per tagged field that is not at
its zero value. -/
theorem encode_length : ∀ v : Value, (encode v).length = nonZeroIn v
  | .struct fs => by
    have ih := encodeFields_length fs
    simpa [encode, nonZeroIn] using ih
  | .str _ => by simp [encode, nonZeroIn]
  | .int _ => by simp [encode, nonZeroIn]
  | .bool _ => by simp [encode, nonZeroIn]
  | .float _ => by simp [encode, nonZeroIn]
  | .seq _ => by simp [encode, nonZeroIn]
  | .markup _ => by simp [encode, nonZeroIn]
  | .file _ => by simp [encode, nonZeroIn]
  | .inlineKeyboard _ => by simp [encode, nonZeroIn]
  | .external _ => by simp [encode, nonZeroIn]
end

/-- Without a pending binary part every entry becomes a text part. -/
theorem buildParts_of_no_part (readFile : String → Option (List Byte)) (m : WireMapping)
    (h : hasPendingPart m = false) : buildParts readFile m = Except.ok (m.map textPart) := by
  induction m with
  | nil => rfl
  | cons e m ih =>
    obtain ⟨k, v⟩ := e
    simp only [hasPendingPart, List.any_cons, Bool.or_eq_false_iff] at h
    have ih2 := ih (by simpa [hasPendingPart] using h.2)
    cases v with
    | text s => simp [buildParts, buildPart, ih2, textPart]
    | floatText bits => simp [buildParts, buildPart, ih2, textPart]
    | jsonText v => simp [buildParts, buildPart, ih2, textPart]
    | part filename bytes => simp [WireValue.isPendingPart] at h

/-- Text entries in front of a mapping become text parts in front of its parts. -/
theorem buildParts_append_of_no_part (readFile : String → Option (List Byte))
    (a b : WireMapping) (h : hasPendingPart a = false) :
    buildParts readFile (a ++ b)
      = match buildParts readFile b with
        | Except.ok ps => Except.ok (a.map textPart ++ ps)
        | Except.error e => Except.error e := by
  induction a with
  | nil => cases hb : buildParts readFile b <;> simp [hb]
  | cons e a ih =>
    obtain ⟨k, v⟩ := e
    simp only [hasPendingPart, List.any_cons, Bool.or_eq_false_iff] at h
    have ih2 := ih (by simpa [hasPendingPart] using h.2)
    cases v with
    | text s => cases hb : buildParts readFile b <;>
        simp [buildParts, buildPart, ih2, hb, textPart]
    | floatText bits => cases hb : buildParts readFile b <;>
        simp [buildParts, buildPart, ih2, hb, textPart]
    | jsonText v => cases hb : buildParts readFile b <;>
        simp [buildParts, buildPart, ih2, hb, textPart]
    | part filename bytes => simp [WireValue.isPendingPart] at h

/-- The parts are built exactly when every deferred read succeeds. -/
theorem buildParts_isOk (readFile : String → Option (List Byte)) (m : WireMapping) :
    (match buildParts readFile m with
      | Except.ok _ => true
      | Except.error _ => false) = readsSucceed readFile m := by
  induction m with
  | nil => rfl
  | cons e m ih =>
    obtain ⟨k, v⟩ := e
    unfold readsSucceed at ih ⊢
    rw [List.all_cons, ← ih]
    cases v with
    | text s => cases hb : buildParts readFile m <;> simp [buildParts, buildPart, hb]
    | floatText bits => cases hb : buildParts readFile m <;> simp [buildParts, buildPart, hb]
    | jsonText v => cases hb : buildParts readFile m <;> simp [buildParts, buildPart, hb]
    | part filename bytes =>
      cases bytes with
      | inMemory bs => cases hb : buildParts readFile m <;> simp [buildParts, buildPart, hb]
      | deferredRead path =>
        cases hf : readFile path <;> cases hb : buildParts readFile m <;>
          simp [buildParts, buildPart, hb, hf]

/-- Text parts are not binary parts. -/
theorem filter_isBinary_textPart (m : WireMapping) :
    (m.map textPart).filter Part.isBinary = [] := by
  induction m with
  | nil => rfl
  | cons e m ih => simp [textPart, Part.isBinary, ih]

/-- The thumbnail field holding non-empty in-memory bytes stores one pending
binary part, under `thumb`, with the given name and bytes. -/
theorem encodeField_thumb_bytes (fileName : String) (bytes : List Byte) (h : 0 < bytes.length) :
    encodeField "thumb" (Value.file (NewInputFileBytes fileName (some bytes)))
      = [("thumb", WireValue.part fileName (BytesSource.inMemory bytes))] := by
  have hne : bytes.length ≠ 0 := Nat.pos_iff_ne_zero.mp h
  simp [encodeField, resolve, NewInputFileBytes, InputFile.isRemoteID, InputFile.isLocalPath,
    InputFile.isInlineBytes, InputFile.hasContent, Slice.len, h, hne]

/-- C15, as stated, fails when a deferred read fails: `AudioOptions` with
`Thumb = NewInputFilePath("missing.jpg")` encodes to a mapping with one pending
binary part, and on a filesystem where the file cannot be read the builder
produces no body at all, neither multipart nor URL-encoded. -/
theorem build_fails_on_unreadable_path :
    encode (setField "Thumb" (Value.file (NewInputFilePath "missing.jpg"))
        (zeroValue AudioOptions))
      = [("thumb", WireValue.part "missing.jpg" (BytesSource.deferredRead "missing.jpg"))]
    ∧ hasPendingPart
        [("thumb", WireValue.part "missing.jpg" (BytesSource.deferredRead "missing.jpg"))] = true
    ∧ build (fun _ => none)
        [("thumb", WireValue.part "missing.jpg" (BytesSource.deferredRead "missing.jpg"))]
      = Except.error (TransportPrepError.readFailed "missing.jpg")
    ∧ producesMultipart (build (fun _ => none)
        [("thumb", WireValue.part "missing.jpg" (BytesSource.deferredRead "missing.jpg"))])
      = false :=
  ⟨rfl, rfl, rfl, rfl⟩

/-- C15, amended: the request builder produces a URL-encoded body exactly when
the mapping holds no pending binary part, a multipart body exactly when it holds
at least one and every deferred file read succeeds, and no body (a
transport-preparation failure) when a deferred read fails.  For an options bundle
whose `thumb` field is `NewInputFileBytes("thumb.jpg", bytes)` with 10 bytes, the
other fields storing no binary part, the body is multipart on every filesystem:
one text part per other non-zero field, in order, and exactly one binary part,
named `thumb`, with file name `thumb.jpg` and those bytes. -/
theorem build_body_kind (readFile : String → Option (List Byte)) (m : WireMapping)
    (pre post : List (FieldDecl × Value)) (bytes : List Byte)
    (hpre : hasPendingPart (encodeFields pre) = false)
    (hpost : hasPendingPart (encodeFields post) = false)
    (hlen : bytes.length = 10) :
    producesUrlEncoded (build readFile m) = !hasPendingPart m
    ∧ producesMultipart (build readFile m) = (hasPendingPart m && readsSucceed readFile m)
    ∧ ((∃ e, build readFile m = Except.error e)
        ↔ (hasPendingPart m = true ∧ readsSucceed readFile m = false))
    ∧ build readFile (encode (Value.struct (pre ++
        ({ name := "Thumb", query := "thumb" },
          Value.file (NewInputFileBytes "thumb.jpg" (some bytes))) :: post)))
      = Except.ok (RequestPayload.multipart ((encodeFields pre).map textPart
          ++ Part.binary "thumb" "thumb.jpg" bytes :: (encodeFields post).map textPart))
    ∧ ((encodeFields pre).map textPart).length + ((encodeFields post).map textPart).length
        = nonZeroFields pre + nonZeroFields post
    ∧ (((encodeFields pre).map textPart
          ++ Part.binary "thumb" "thumb.jpg" bytes :: (encodeFields post).map textPart).filter
        Part.isBinary).length = 1 := by
  have hok := buildParts_isOk readFile m
  refine ⟨?_, ?_, ?_, ?_, ?_, ?_⟩
  · cases hp : hasPendingPart m
    · simp [build, hp, producesUrlEncoded, RequestPayload.isMultipart]
    · cases hb : buildParts readFile m <;>
        simp [build, hp, hb, producesUrlEncoded, RequestPayload.isMultipart]
  · cases hp : hasPendingPart m
    · simp [build, hp, producesMultipart, RequestPayload.isMultipart]
    · cases hb : buildParts readFile m <;> rw [hb] at hok <;>
        simp [build, hp, hb, producesMultipart, RequestPayload.isMultipart, ← hok]
  · cases hp : hasPendingPart m
    · simp [build, hp]
    · cases hb : buildParts readFile m <;> rw [hb] at hok <;>
        simp [build, hp, hb, ← hok]
  · have hthumb := encodeField_thumb_bytes "thumb.jpg" bytes (by omega)
    have hdec : ¬ (("thumb" : String) = recursiveTag) := by decide
    have henc : encodeFields (pre ++
        (({ name := "Thumb", query := "thumb" } : FieldDecl),
          Value.file (NewInputFileBytes "thumb.jpg" (some bytes))) :: post)
        = encodeFields pre
          ++ ("thumb", WireValue.part "thumb.jpg" (BytesSource.inMemory bytes))
            :: encodeFields post := by
      rw [encodeFields_append]
      simp [encodeFields, hdec, hthumb]
    have hany : hasPendingPart (encodeFields pre
          ++ ("thumb", WireValue.part "thumb.jpg" (BytesSource.inMemory bytes))
            :: encodeFields post) = true := by
      simp [hasPendingPart, WireValue.isPendingPart]
    simp only [encode, henc, build, hany, if_true]
    rw [buildParts_append_of_no_part readFile _ _ hpre]
    simp [buildParts, buildPart, buildParts_of_no_part readFile _ hpost]
  · simp [encodeFields_length]
  · simp [List.filter_append, filter_isBinary_textPart, Part.isBinary]

/-- C15, amended, at an `AudioOptions`-shaped bundle with notification disabled,
the caption "hello" and a thumbnail of 10 bytes, on a filesystem where no file
can be read: two text parts and the one binary part. -/
theorem build_body_kind_witness :
    hasPendingPart (encodeFields
        [embeddedBaseOptions true 0 false none,
          ({ name := "Caption", query := "caption" }, Value.str "hello")]) = false
    ∧ hasPendingPart (encodeFields ([] : List (FieldDecl × Value))) = false
    ∧ ([0, 1, 2, 3, 4, 5, 6, 7, 8, 9] : List Byte).length = 10
    ∧ build (fun _ => none) (encode (Value.struct
        ([embeddedBaseOptions true 0 false none,
          ({ name := "Caption", query := "caption" }, Value.str "hello")] ++
        ({ name := "Thumb", query := "thumb" },
          Value.file (NewInputFileBytes "thumb.jpg" (some [0, 1, 2, 3, 4, 5, 6, 7, 8, 9])))
          :: [])))
      = Except.ok (RequestPayload.multipart
          [Part.text "disable_notification" (WireValue.text "true"),
           Part.text "caption" (WireValue.text "hello"),
           Part.binary "thumb" "thumb.jpg" [0, 1, 2, 3, 4, 5, 6, 7, 8, 9]]) :=
  ⟨rfl, rfl, rfl,
    (build_body_kind (fun _ => none) []
      [embeddedBaseOptions true 0 false none,
        ({ name := "Caption", query := "caption" }, Value.str "hello")]
      [] [0, 1, 2, 3, 4, 5, 6, 7, 8, 9] rfl rfl rfl).2.2.2.1⟩

end Echotron
